import Mathlib

/-!
# Temp-ban poll subsystem of the Discord bot (`src/bot.js`)

A shallow embedding of the poll code of `src/bot.js`:

* `JSSet`   : a JavaScript `Set` of strings (insertion ordered, duplicate free);
* `Poll`    : the object literal stored by `handleTempBanVote` (lines 512-522);
* `castVote`: the vote mutation of the button handler (lines 160-166);
* `Task`    : asynchronous code as a tree whose nodes are synchronous state
              accesses and `await`ed collaborator calls;
* `endPoll` : lines 526-601, `onButton` : lines 137-183 of the handler;
* `handleTempBanVote` : lines 472-523, the creation of a poll;
* `run`     : one handler run to completion; `interleave` : several handlers
              taking turns at their `await` points.
-/

namespace Bot

/-! ## JavaScript `Set` of strings -/

/-- A JavaScript `Set` holding strings: its members in insertion order, with no
member twice. -/
structure JSSet where
  items : List String
  nodup : items.Nodup

namespace JSSet

instance : DecidableEq JSSet := fun a b =>
  match a, b with
  | ⟨xs, _⟩, ⟨ys, _⟩ =>
    if h : xs = ys then isTrue (by subst h; rfl)
    else isFalse (fun e => h (congrArg JSSet.items e))

/-- The result of `new Set()`. -/
def empty : JSSet := ⟨[], List.nodup_nil⟩

/-- The getter `set.size`. -/
def size (s : JSSet) : Nat := s.items.length

/-- The method `set.has(v)`. -/
def has (s : JSSet) (v : String) : Bool := decide (v ∈ s.items)

/-- The method `set.delete(v)`: the member equal to `v`, if any, is removed. -/
def delete (s : JSSet) (v : String) : JSSet :=
  ⟨s.items.erase v, s.nodup.erase v⟩

/-- The method `set.add(v)`: `v` is appended unless it is already a member. -/
def add (s : JSSet) (v : String) : JSSet :=
  if h : v ∈ s.items then s
  else ⟨s.items ++ [v], List.Nodup.append s.nodup (List.nodup_singleton v)
      (by
        intro a ha hb
        have : a = v := by simpa using hb
        exact h (this ▸ ha))⟩

instance : Membership String JSSet := ⟨fun s v => v ∈ s.items⟩

instance (v : String) (s : JSSet) : Decidable (v ∈ s) :=
  inferInstanceAs (Decidable (v ∈ s.items))

/-- The members as a finite set (the order of insertion forgotten). -/
def toFinset (s : JSSet) : Finset String := s.items.toFinset

end JSSet

/-! ## Polls -/

/-- The object stored in `polls` by `handleTempBanVote` (lines 512-522).
`timeout` is the handle returned by `setTimeout`. -/
structure Poll where
  target : String
  serverId : String
  reason : String
  yes : JSSet
  no : JSSet
  initiator : String
  timeout : Nat
  messageId : String
  channelId : String
deriving DecidableEq

/-- The object literal of lines 512-522: both voter sets are `new Set()`. -/
def newPoll (player serverId reason initiator : String) (timeout : Nat)
    (messageId channelId : String) : Poll :=
  { target := player, serverId := serverId, reason := reason,
    yes := JSSet.empty, no := JSSet.empty, initiator := initiator,
    timeout := timeout, messageId := messageId, channelId := channelId }

/-- Lines 160-166 of the button handler, on the poll object: the voter is
deleted from both sets, then added to `yes` when the action is `tempban_yes`
and to `no` when it is `tempban_no`. -/
def castVote (poll : Poll) (voter action : String) : Poll :=
  let poll := { poll with yes := poll.yes.delete voter }
  let poll := { poll with no := poll.no.delete voter }
  let poll := if action = "tempban_yes" then { poll with yes := poll.yes.add voter } else poll
  let poll := if action = "tempban_no" then { poll with no := poll.no.add voter } else poll
  poll

/-- The two choices offered by the vote buttons. -/
inductive Choice where
  | Yes
  | No
deriving DecidableEq

/-- The action part of the custom id of the button of a choice (lines 501-502). -/
def Choice.action : Choice → String
  | .Yes => "tempban_yes"
  | .No => "tempban_no"

/-- A sequence of cast-vote events, in arrival order, applied to a poll. -/
def castVotes (poll : Poll) (votes : List (String × Choice)) : Poll :=
  votes.foldl (fun p e => castVote p e.1 e.2.action) poll

/-! ## JavaScript strings -/

/-- Truthiness of a value that is a string or `undefined`: `undefined` and the
empty string are falsy. -/
def truthy : Option String → Bool
  | none => false
  | some s => s ≠ ""

/-- A string-or-`undefined` value inside a template literal. -/
def jsStr : Option String → String
  | none => "undefined"
  | some s => s

/-- The pieces of `s.split(sep)` for a one character separator. -/
def splitChars (sep : Char) : List Char → List (List Char)
  | [] => [[]]
  | c :: cs =>
    if c = sep then [] :: splitChars sep cs
    else
      match splitChars sep cs with
      | [] => [[c]]
      | w :: ws => (c :: w) :: ws

/-- The call `s.split(':')`. -/
def split (s : String) (sep : Char) : List String :=
  (splitChars sep s.data).map String.mk

/-- The first occurrence of `pat` in a string: the text before it and the text
after it. -/
def findFirst (pat : List Char) : List Char → Option (List Char × List Char)
  | [] => if pat = [] then some ([], []) else none
  | c :: cs =>
    if pat.isPrefixOf (c :: cs) then some ([], (c :: cs).drop pat.length)
    else (findFirst pat cs).map (fun r => (c :: r.1, r.2))

/-- The scan of GetSubstitution; `pending` says that a `$` was read and is not
yet accounted for. -/
def getSubstitutionFrom (matched before after : List Char) : Bool → List Char → List Char
  | false, [] => []
  | true, [] => ['$']
  | false, c :: cs =>
    if c = '$' then getSubstitutionFrom matched before after true cs
    else c :: getSubstitutionFrom matched before after false cs
  | true, c :: cs =>
    if c = '$' then '$' :: getSubstitutionFrom matched before after false cs
    else if c = '&' then matched ++ getSubstitutionFrom matched before after false cs
    else if c = Char.ofNat 96 then before ++ getSubstitutionFrom matched before after false cs
    else if c = Char.ofNat 39 then after ++ getSubstitutionFrom matched before after false cs
    else '$' :: c :: getSubstitutionFrom matched before after false cs

/-- The abstract operation GetSubstitution of ECMAScript for a string pattern
(no capture groups): in the replacement text `$$` stands for `$`, `$&` for the
matched text, `$` followed by a backtick for the text before the match, `$`
followed by an apostrophe for the text after it; every other character stands
for itself. -/
def getSubstitution (matched before after replacement : List Char) : List Char :=
  getSubstitutionFrom matched before after false replacement

/-- The call `s.replace(pattern, replacement)` with a string pattern: only the
first occurrence is replaced, by the substitution of the replacement text. -/
def replace (s pattern replacement : String) : String :=
  match findFirst pattern.data s.data with
  | none => s
  | some (before, after) =>
    String.mk (before ++ getSubstitution pattern.data before after replacement.data ++ after)

/-- Whether `sub` occurs in `s` as a contiguous piece of text. -/
def containsText (s sub : String) : Prop := sub.data <:+: s.data

instance (s sub : String) : Decidable (containsText s sub) :=
  inferInstanceAs (Decidable (sub.data <:+: s.data))

/-! ## Process state -/

/-- The variables of `process.env` read by the bot. -/
structure Env where
  DISCORD_REQUIRED_ROLE : Option String
  DISCORD_START_ROLE : Option String
  DEFAULT_SERVER_ID : Option String
  TEMPBAN_COMMAND_FORMAT : Option String

/-- A pending timer created by `setTimeout(() => endPoll(pollId), delay)`. -/
structure Timer where
  handle : Nat
  delay : Nat
  pollId : String
deriving DecidableEq

/-- The JavaScript `Map` named `polls` (line 20): poll id to poll object, the
object given by its reference. -/
abbrev PollMap := List (String × Nat)

namespace PollMap

/-- The method `polls.get(id)`. -/
def get (m : PollMap) (id : String) : Option Nat :=
  (m.find? (fun e => e.1 = id)).map Prod.snd

/-- The method `polls.has(id)`. -/
def has (m : PollMap) (id : String) : Bool := (get m id).isSome

/-- The method `polls.delete(id)`. -/
def delete (m : PollMap) (id : String) : PollMap :=
  m.filter (fun e => e.1 ≠ id)

/-- The method `polls.set(id, ref)`: an existing key keeps its place. -/
def set (m : PollMap) (id : String) (ref : Nat) : PollMap :=
  if has m id then m.map (fun e => if e.1 = id then (id, ref) else e)
  else m ++ [(id, ref)]

end PollMap

/-- The mutable state of the process that the poll code touches: the poll
objects (a reference is an index into `heap`), the map `polls` and the pending
timers. -/
structure State where
  heap : List Poll
  polls : PollMap
  timers : List Timer
deriving DecidableEq

instance : Inhabited Poll :=
  ⟨newPoll "" "" "" "" 0 "" ""⟩

namespace State

/-- The poll object behind a reference. -/
def deref (s : State) (ref : Nat) : Poll := (s.heap[ref]?).getD default

/-- Mutation of the poll object behind a reference. -/
def mutate (s : State) (ref : Nat) (f : Poll → Poll) : State :=
  { s with heap := s.heap.modify f ref }

/-- The poll registered under an id, if any. -/
def poll? (s : State) (id : String) : Option Poll :=
  match s.polls.get id with
  | none => none
  | some ref => s.heap[ref]?

/-- The effect of `clearTimeout(handle)`. -/
def clearTimeout (s : State) (handle : Nat) : State :=
  { s with timers := s.timers.filter (fun t => t.handle ≠ handle) }

/-- The effect of `polls.delete(id)`. -/
def deletePoll (s : State) (id : String) : State :=
  { s with polls := s.polls.delete id }

end State

/-! ## Asynchronous code -/

/-- What `endPoll` reads of the value returned by `exarotonAPI.executeCommand`:
`res.success` and `res.error` (`none` for `undefined`). -/
structure CmdResult where
  success : Bool
  error : Option String
deriving DecidableEq

/-- A button of a message component row. -/
structure Button where
  customId : String
  label : String
  style : String
  disabled : Bool
deriving DecidableEq

/-- The awaited calls to Discord whose value the code does not read. -/
inductive Call where
  /-- The call `interaction.reply({ content, ephemeral })`. -/
  | reply (content : String) (ephemeral : Bool)
  /-- The call `interaction.deferUpdate()`. -/
  | deferUpdate
  /-- The call `interaction.update(...)`: footer and fields of the embed; the
  components are those of the message. -/
  | update (footer : String) (fields : List (String × String))
  /-- The call `client.channels.fetch(channelId)`. -/
  | fetchChannel (channelId : String)
  /-- The call `channel.messages.fetch(messageId)`. -/
  | fetchMessage (channelId messageId : String)
  /-- The call `message.edit(...)`: footer and fields of the embed, and the row
  of buttons. -/
  | edit (messageId footer : String) (fields : List (String × String)) (row : List Button)
  /-- The call `channel.send(text)`. -/
  | send (channelId text : String)
  /-- The call `interaction.editReply(text)`. -/
  | editReply (content : String)
  /-- The call `interaction.editReply(...)` with the embed of a new poll (title,
  description, footer, fields) and its row of buttons. -/
  | editReplyPoll (title description footer : String) (fields : List (String × String))
      (row : List Button)
  /-- The call `interaction.fetchReply()`. -/
  | fetchReply
  /-- The call `interaction.deferReply()`. -/
  | deferReply
deriving DecidableEq

/-- Asynchronous code as a tree. `get`, `set` and `console` are synchronous;
`call`, `getServerInfo` and `executeCommand` are the `await` points, each
continuing with the value the collaborator resolved to (`ok`) or with the
message of the error it rejected with (`error`). `throw` is a raised error. -/
inductive Task (α : Type) where
  | pure (a : α)
  | throw (e : String)
  | get (k : State → Task α)
  | set (s : State) (k : Task α)
  | console (line : String) (k : Task α)
  | call (c : Call) (k : Except String Unit → Task α)
  | getServerInfo (serverId : String) (k : Except String Nat → Task α)
  | executeCommand (serverId command : String) (k : Except String CmdResult → Task α)

namespace Task

/-- Sequencing: `x` and then `f` on its value; a raised error skips `f`. -/
def bind {α β : Type} : Task α → (α → Task β) → Task β
  | .pure a, f => f a
  | .throw e, _ => .throw e
  | .get k, f => .get (fun s => bind (k s) f)
  | .set s k, f => .set s (bind k f)
  | .console l k, f => .console l (bind k f)
  | .call c k, f => .call c (fun r => bind (k r) f)
  | .getServerInfo i k, f => .getServerInfo i (fun r => bind (k r) f)
  | .executeCommand i c k, f => .executeCommand i c (fun r => bind (k r) f)

/-- The statement `try { x } catch (err) { h err }`. -/
def tryCatch {α : Type} : Task α → (String → Task α) → Task α
  | .pure a, _ => .pure a
  | .throw e, h => h e
  | .get k, h => .get (fun s => tryCatch (k s) h)
  | .set s k, h => .set s (tryCatch k h)
  | .console l k, h => .console l (tryCatch k h)
  | .call c k, h => .call c (fun r => tryCatch (k r) h)
  | .getServerInfo i k, h => .getServerInfo i (fun r => tryCatch (k r) h)
  | .executeCommand i c k, h => .executeCommand i c (fun r => tryCatch (k r) h)

/-- The statement `try { x } finally { fin }`: `fin` runs however `x`
ends, and an error raised by `x` is raised again after it. -/
def tryFinally {α β : Type} : Task α → (Option α → Task β) → Task (α × β)
  | .pure a, fin => bind (fin (some a)) (fun b => .pure (a, b))
  | .throw e, fin => bind (fin none) (fun _ => .throw e)
  | .get k, fin => .get (fun s => tryFinally (k s) fin)
  | .set s k, fin => .set s (tryFinally k fin)
  | .console l k, fin => .console l (tryFinally k fin)
  | .call c k, fin => .call c (fun r => tryFinally (k r) fin)
  | .getServerInfo i k, fin => .getServerInfo i (fun r => tryFinally (k r) fin)
  | .executeCommand i c k, fin => .executeCommand i c (fun r => tryFinally (k r) fin)

instance : Monad Task where
  pure := Task.pure
  bind := Task.bind

instance : MonadExcept String Task where
  throw := Task.throw
  tryCatch := Task.tryCatch

instance : MonadFinally Task where
  tryFinally' := Task.tryFinally

/-- An awaited promise: its value, or its rejection raised. -/
def settle {α : Type} : Except String α → Task α
  | .ok a => .pure a
  | .error e => .throw e

end Task

/-- The expression `await c` for a call to Discord. -/
def await (c : Call) : Task Unit := .call c Task.settle

/-- The expression `await exarotonAPI.getServerInfo(serverId)`, read for its
`status`. -/
def getServerInfo (serverId : String) : Task Nat := .getServerInfo serverId Task.settle

/-- The expression `await exarotonAPI.executeCommand(serverId, command)`. -/
def executeCommand (serverId command : String) : Task CmdResult :=
  .executeCommand serverId command Task.settle

/-- A read of the process state. -/
def getState : Task State := .get Task.pure

/-- A synchronous update of the process state. -/
def modifyState (f : State → State) : Task Unit := .get (fun s => .set (f s) (.pure ()))

/-- The calls `console.log(...)` and `console.error(...)`. -/
def console (line : String) : Task Unit := .console line (.pure ())

/-! ## Sequential execution -/

instance {ε α : Type} [DecidableEq ε] [DecidableEq α] : DecidableEq (Except ε α)
  | .ok a, .ok b =>
    if h : a = b then isTrue (by rw [h]) else isFalse (fun e => h (Except.ok.inj e))
  | .error a, .error b =>
    if h : a = b then isTrue (by rw [h]) else isFalse (fun e => h (Except.error.inj e))
  | .ok _, .error _ => isFalse (fun e => Except.noConfusion e)
  | .error _, .ok _ => isFalse (fun e => Except.noConfusion e)

/-- One observable effect, with what the collaborator answered. -/
inductive Event where
  | console (line : String)
  | call (c : Call) (r : Except String Unit)
  | getServerInfo (serverId : String) (r : Except String Nat)
  | executeCommand (serverId command : String) (r : Except String CmdResult)
deriving DecidableEq

/-- The collaborators: what each awaited call answers, given the effects so
far. An answer is a value or the message of a raised error. -/
structure World where
  call : List Event → Call → Except String Unit
  getServerInfo : List Event → String → Except String Nat
  executeCommand : List Event → String → String → Except String CmdResult

/-- How a task ended: its value or the error it raised, the state it left and
the effects in the order they happened. -/
structure Outcome (α : Type) where
  result : Except String α
  state : State
  trace : List Event

/-- The run of one task to completion with no other task in between. -/
def run {α : Type} (W : World) : Task α → State → List Event → Outcome α
  | .pure a, s, t => ⟨.ok a, s, t⟩
  | .throw e, s, t => ⟨.error e, s, t⟩
  | .get k, s, t => run W (k s) s t
  | .set s k, _, t => run W k s t
  | .console l k, s, t => run W k s (t ++ [.console l])
  | .call c k, s, t => run W (k (W.call t c)) s (t ++ [.call c (W.call t c)])
  | .getServerInfo i k, s, t =>
    run W (k (W.getServerInfo t i)) s (t ++ [.getServerInfo i (W.getServerInfo t i)])
  | .executeCommand i c k, s, t =>
    run W (k (W.executeCommand t i c)) s (t ++ [.executeCommand i c (W.executeCommand t i c)])

/-- Whether an effect is a call of `exarotonAPI.executeCommand`. -/
def Event.isExecuteCommand : Event → Bool
  | .executeCommand _ _ _ => true
  | _ => false

/-- Whether an effect is the call `exarotonAPI.executeCommand(serverId, command)`. -/
def Event.isExecuteOf (serverId command : String) : Event → Bool
  | .executeCommand i c _ => i = serverId && c = command
  | _ => false

/-- Whether an effect is a call of `exarotonAPI.getServerInfo`. -/
def Event.isGetServerInfo : Event → Bool
  | .getServerInfo _ _ => true
  | _ => false

/-- Whether an effect is the call `channel.send(text)` on the given channel. -/
def Event.isSend (channelId text : String) : Event → Bool
  | .call (.send c x) _ => c = channelId && x = text
  | _ => false

/-- Whether an effect is a call `channel.send(...)`. -/
def Event.isAnySend : Event → Bool
  | .call (.send _ _) _ => true
  | _ => false

/-- Whether an effect is a call `channel.send(text)` whose text contains `sub`. -/
def Event.isSendContaining (sub : String) : Event → Bool
  | .call (.send _ x) _ => decide (containsText x sub)
  | _ => false

/-- Whether an effect is a call `message.edit(...)` that resolved. -/
def Event.isEditOk : Event → Bool
  | .call (.edit _ _ _ _) (.ok _) => true
  | _ => false

/-- The effects of a run, without those that came before it. -/
def effects {α : Type} (W : World) (task : Task α) (s : State) (t : List Event) : List Event :=
  (run W task s t).trace.drop t.length

/-! ## Resolution of a poll: `endPoll` -/

/-- The row of disabled buttons of lines 536-540. -/
def disabledRow (pollId : String) (poll : Poll) : List Button :=
  [ { customId := "tempban_yes:" ++ pollId,
      label := "✅ Yes (" ++ toString poll.yes.size ++ ")", style := "Success", disabled := true },
    { customId := "tempban_no:" ++ pollId,
      label := "❌ No (" ++ toString poll.no.size ++ ")", style := "Danger", disabled := true },
    { customId := "tempban_end:" ++ pollId,
      label := "⏹️ Ended", style := "Secondary", disabled := true } ]

/-- The embed fields of lines 174-178 and 546-550. -/
def countFields (poll : Poll) : List (String × String) :=
  [ ("Yes", toString poll.yes.size), ("No", toString poll.no.size), ("Target", poll.target) ]

/-- The command template: `process.env.TEMPBAN_COMMAND_FORMAT`, or the default
`tempban {player} 30m {reason}` when that is unset or empty (line 567). -/
def commandFormat (env : Env) : String :=
  if truthy env.TEMPBAN_COMMAND_FORMAT then jsStr env.TEMPBAN_COMMAND_FORMAT
  else "tempban \x7bplayer\x7d 30m \x7breason\x7d"

/-- The command of lines 568-570. -/
def banCommand (env : Env) (poll : Poll) : String :=
  replace (replace (commandFormat env) "\x7bplayer\x7d" poll.target) "\x7breason\x7d" poll.reason

/-- The notice of line 562. -/
def offlineNotice (poll : Poll) : String :=
  "⚠️ Poll passed but server is offline. Cannot execute tempban command. Please ban **"
    ++ poll.target ++ "** manually when server starts. (Initiated by " ++ poll.initiator ++ ")"

/-- The notice of line 579. -/
def executedNotice (poll : Poll) (command : String) : String :=
  "✅ Poll passed. Executed: `" ++ command ++ "` (Initiated by " ++ poll.initiator ++ ")"

/-- The notice of line 581. -/
def commandFailedNotice (poll : Poll) (res : CmdResult) : String :=
  "❌ Poll passed but command failed: " ++ jsStr res.error
    ++ " (Initiated by " ++ poll.initiator ++ ")"

/-- The notice of line 586. -/
def commandErrorNotice (poll : Poll) (command message : String) : String :=
  "❌ Poll passed but command `" ++ command ++ "` failed: " ++ message
    ++ "\n\n**Note:** Your server might not have a tempban plugin installed, or the command format is different. Configure TEMPBAN_COMMAND_FORMAT in .env or manually ban **"
    ++ poll.target ++ "** for 30 minutes. (Initiated by " ++ poll.initiator ++ ")"

/-- The notice of line 591. -/
def tempbanErrorNotice (poll : Poll) (message : String) : String :=
  "❌ Poll passed but failed to execute tempban: " ++ message
    ++ " (Initiated by " ++ poll.initiator ++ ")"

/-- The notice of line 594. -/
def pollFailedNotice (poll : Poll) : String :=
  "⛔ Poll failed. **" ++ poll.target ++ "** will not be temp-banned. (Initiated by "
    ++ poll.initiator ++ ")"

/-- A read of the poll object behind the local variable `poll`. -/
def readPoll (ref : Nat) : Task Poll := .get (fun s => .pure (s.deref ref))

/-- Lines 564-587: the command is built from the template and executed; the
inner `try`/`catch (cmdErr)`. -/
def executeBan (env : Env) (ref : Nat) : Task Unit := do
  let poll ← readPoll ref
  let banCommand := banCommand env poll
  console ("Executing tempban command: " ++ banCommand)
  try
    let res ← executeCommand poll.serverId banCommand
    console "Tempban command result:"
    let poll ← readPoll ref
    if res.success then
      await (.send poll.channelId (executedNotice poll banCommand))
    else
      await (.send poll.channelId (commandFailedNotice poll res))
  catch cmdErr =>
    console ("Command execution error: " ++ cmdErr)
    let poll ← readPoll ref
    await (.send poll.channelId (commandErrorNotice poll banCommand cmdErr))

/-- Lines 557-592: the passing branch; the `try`/`catch (err)` around the status
query and the execution. -/
def executeIfOnline (env : Env) (ref : Nat) : Task Unit := do
  try
    let poll ← readPoll ref
    let serverInfo ← getServerInfo poll.serverId
    if serverInfo ≠ 1 then
      let poll ← readPoll ref
      await (.send poll.channelId (offlineNotice poll))
    else
      executeBan env ref
  catch err =>
    console ("Failed to execute tempban command: " ++ err)
    let poll ← readPoll ref
    await (.send poll.channelId (tempbanErrorNotice poll err))

/-- Lines 555-595: the outcome, once the message shows the final counts. -/
def decideOutcome (env : Env) (ref : Nat) : Task Unit := do
  let poll ← readPoll ref
  if poll.yes.size > poll.no.size then
    executeIfOnline env ref
  else
    await (.send poll.channelId (pollFailedNotice poll))

/-- The function `endPoll` (lines 526-601). The local variable `poll` holds a
reference to the poll object, so every read of a field is a read of the object
as it is at that moment. A channel that resolves to `null` raises at the next
property access and counts as a rejected fetch. -/
def endPoll (env : Env) (pollId : String) : Task Unit := do
  match (← getState).polls.get pollId with
  | none => pure ()
  | some ref =>
    modifyState (fun s => s.clearTimeout (s.deref ref).timeout)
    try
      let poll ← readPoll ref
      await (.fetchChannel poll.channelId)
      let poll ← readPoll ref
      await (.fetchMessage poll.channelId poll.messageId)
      let poll ← readPoll ref
      await (.edit poll.messageId ("Poll ended | Initiated by " ++ poll.initiator)
        (countFields poll) (disabledRow pollId poll))
      decideOutcome env ref
    catch err =>
      console ("Error ending poll: " ++ err)
    finally
      modifyState (fun s => s.deletePoll pollId)

/-! ## The button branch of the `interactionCreate` handler -/

/-- What the handler reads of a button interaction: `customId`, `user.id`, and
the names of the roles of `member` (`none` when there is no member). -/
structure Interaction where
  customId : String
  userId : String
  member : Option (List String)

/-- The function `hasRequiredRole` (lines 117-125). -/
def hasRequiredRole (env : Env) (interaction : Interaction) : Bool :=
  if !truthy env.DISCORD_REQUIRED_ROLE then true
  else
    match interaction.member with
    | none => false
    | some roles => roles.any (fun name => name = jsStr env.DISCORD_REQUIRED_ROLE)

/-- The destructuring `const [action, pollId] = customId.split(':')`. -/
def parseCustomId (customId : String) : String × Option String :=
  match split customId ':' with
  | [] => ("", none)
  | [action] => (action, none)
  | action :: pollId :: _ => (action, some pollId)

/-- The reply of line 150. -/
def roleNotice (env : Env) : String :=
  "❌ You need the **" ++ jsStr env.DISCORD_REQUIRED_ROLE ++ "** role to end polls."

/-- Lines 137-183 of the handler: a button interaction. -/
def onButton (env : Env) (interaction : Interaction) : Task Unit := do
  let (action, pollId) := parseCustomId interaction.customId
  let s ← getState
  if !truthy pollId || !s.polls.has (jsStr pollId) then
    await (.reply "❌ Poll not found or expired." true)
  else
    let pollId := jsStr pollId
    let poll := s.polls.get pollId
    if action = "tempban_end" then
      if !hasRequiredRole env interaction then
        await (.reply (roleNotice env) true)
      else
        await .deferUpdate
        endPoll env pollId
    else
      match poll with
      | none => throw "TypeError: poll is undefined"
      | some ref =>
        let voter := interaction.userId
        modifyState (fun s => s.mutate ref (fun poll => castVote poll voter action))
        let poll ← readPoll ref
        await (.update ("Poll: " ++ pollId ++ " | Initiated by " ++ poll.initiator)
          (countFields poll))

/-! ## Concrete inputs -/

/-- Collaborators that all succeed: the server is online and the command is
accepted. -/
def worldOnline : World :=
  { call := fun _ _ => .ok ()
    getServerInfo := fun _ _ => .ok 1
    executeCommand := fun _ _ _ => .ok { success := true, error := none } }

/-- Collaborators where `client.channels.fetch` rejects. -/
def worldNoChannel : World :=
  { call := fun _ c =>
      match c with
      | .fetchChannel _ => .error "Unknown Channel"
      | _ => .ok ()
    getServerInfo := fun _ _ => .ok 1
    executeCommand := fun _ _ _ => .ok { success := true, error := none } }

/-- Collaborators where the server is reported offline (status 0). -/
def worldOffline : World :=
  { call := fun _ _ => .ok ()
    getServerInfo := fun _ _ => .ok 0
    executeCommand := fun _ _ _ => .ok { success := true, error := none } }

/-- Collaborators where the command raises. -/
def worldCommandRaises : World :=
  { call := fun _ _ => .ok ()
    getServerInfo := fun _ _ => .ok 1
    executeCommand := fun _ _ _ => .error "Failed to execute command: timeout" }

/-- An environment with the required role `Bot` and the default template. -/
def envBot : Env :=
  { DISCORD_REQUIRED_ROLE := some "Bot", DISCORD_START_ROLE := none,
    DEFAULT_SERVER_ID := some "srv1", TEMPBAN_COMMAND_FORMAT := none }

/-- A poll on `Steve` with two yes votes and one no vote. -/
def pollPassing : Poll :=
  castVotes (newPoll "Steve" "srv1" "griefing" "ann" 7 "m1" "c1")
    [("a", .Yes), ("b", .Yes), ("c", .No)]

/-- A poll on `Steve` with one yes vote and one no vote. -/
def pollTied : Poll :=
  castVotes (newPoll "Steve" "srv1" "griefing" "ann" 7 "m1" "c1") [("a", .Yes), ("b", .No)]

/-- A state whose registry holds `pollPassing` under `poll_x`. -/
def statePassing : State :=
  { heap := [pollPassing], polls := [("poll_x", 0)], timers := [⟨7, 300000, "poll_x"⟩] }

/-- A state whose registry holds `pollTied` under `poll_x`. -/
def stateTied : State :=
  { heap := [pollTied], polls := [("poll_x", 0)], timers := [⟨7, 300000, "poll_x"⟩] }

/-- A press of the End Poll button by a user without the role `Bot`. -/
def endPressUnprivileged : Interaction :=
  { customId := "tempban_end:poll_x", userId := "u1", member := some ["Member"] }


/-- A press of the Yes button of the poll `poll_x` by the user `a`. -/
def votePressYes : Interaction :=
  { customId := "tempban_yes:poll_x", userId := "a", member := some ["Member"] }

/-- A press of the End Poll button by a user with the role `Bot`. -/
def endPressPrivileged : Interaction :=
  { customId := "tempban_end:poll_x", userId := "u2", member := some ["Bot"] }

/-- A state with no poll and no timer. -/
def stateEmpty : State := { heap := [], polls := [], timers := [] }

/-- Whether an effect is the log line of the outer `catch` of `endPoll`
(line 597). -/
def Event.isEndingErrorLog : Event → Bool
  | .console l => "Error ending poll: ".data.isPrefixOf l.data
  | _ => false

/-! ## Creation of a poll: `handleTempBanVote` -/

/-- The expression `a || b` for `a` a string or `null`. -/
def orElse (a : Option String) (b : String) : String :=
  if truthy a then jsStr a else b

/-- One digit of `Number.prototype.toString(36)`. -/
def base36Digit (d : Nat) : Char :=
  if d < 10 then Char.ofNat (48 + d) else Char.ofNat (87 + d)

/-- The digits of `n` in base 36 in front of `acc`; `fuel` bounds the number of
digits. -/
def toBase36Digits : Nat → Nat → List Char → List Char
  | 0, _, acc => acc
  | fuel + 1, n, acc =>
    if n < 36 then base36Digit n :: acc
    else toBase36Digits fuel (n / 36) (base36Digit (n % 36) :: acc)

/-- The call `n.toString(36)` for a non-negative integer. -/
def toBase36 (n : Nat) : String := String.mk (toBase36Digits (n + 1) n [])

/-- The call `s.slice(start, stop)` for `0 ≤ start ≤ stop`. -/
def slice (s : String) (start stop : Nat) : String :=
  String.mk ((s.data.drop start).take (stop - start))

/-- The poll id of line 487. `now` is the value of `Date.now()`, `randomText`
the text `Math.random().toString(36)`. -/
def newPollId (now : Nat) (randomText : String) : String :=
  "poll_" ++ toBase36 now ++ "_" ++ slice randomText 2 8

/-- What `handleTempBanVote` reads of the slash-command interaction: the options
`player` and `reason` (`none` when `getString` gives `null`) and `user.tag`. -/
structure CommandInteraction where
  player : Option String
  reason : Option String
  userTag : String

/-- What is read of the message that `interaction.fetchReply()` resolves to. -/
structure Message where
  id : String
  channelId : String

/-- The row of buttons of lines 500-504. -/
def voteRow (pollId : String) : List Button :=
  [ { customId := "tempban_yes:" ++ pollId, label := "✅ Yes", style := "Success",
      disabled := false },
    { customId := "tempban_no:" ++ pollId, label := "❌ No", style := "Danger",
      disabled := false },
    { customId := "tempban_end:" ++ pollId, label := "⏹️ End Poll", style := "Secondary",
      disabled := false } ]

/-- The embed of lines 489-498 and the row of lines 500-504, as the call of
line 506. -/
def pollReply (pollId player serverId reason userTag : String) : Call :=
  .editReplyPoll ("🗳️ Temp-Ban Vote: " ++ player)
    ("A vote has been started to temporarily ban **" ++ player
      ++ "** for 30 minutes.\n\n**Server:** " ++ serverId ++ "\n**Reason:** " ++ reason
      ++ "\n\nVote now — poll ends in 5 minutes.")
    ("Poll: " ++ pollId ++ " | Initiated by " ++ userTag)
    [("Yes", "0"), ("No", "0"), ("Target", player)]
    (voteRow pollId)

namespace State

/-- A timer handle that no pending timer and no poll object holds: the value of
a new call of `setTimeout`. -/
def freshHandle (s : State) : Nat :=
  (s.timers.map (fun t => t.handle) ++ s.heap.map (fun p => p.timeout)).foldr max 0 + 1

/-- Lines 511-522: the timer is armed with `setTimeout(() => endPoll(pollId),
5 * 60 * 1000)` and `polls.set(pollId, ...)` stores a new poll object. -/
def createPoll (s : State) (pollId player serverId reason initiator : String)
    (msg : Message) : State :=
  { heap := s.heap ++ [newPoll player serverId reason initiator s.freshHandle msg.id
      msg.channelId],
    polls := s.polls.set pollId s.heap.length,
    timers := s.timers ++ [⟨s.freshHandle, 5 * 60 * 1000, pollId⟩] }

end State

/-- The function `handleTempBanVote` (lines 472-523). `now` is the value of
`Date.now()`, `randomText` the text `Math.random().toString(36)` and `msg` the
message that `interaction.fetchReply()` resolves to when it resolves. -/
def handleTempBanVote (env : Env) (interaction : CommandInteraction) (now : Nat)
    (randomText : String) (msg : Message) : Task Unit := do
  let player := interaction.player
  let serverId := env.DEFAULT_SERVER_ID
  let reason := orElse interaction.reason "No reason provided"
  if !truthy player then
    await (.editReply "❌ Player username is required")
  else if !truthy serverId then
    await (.editReply "❌ DEFAULT_SERVER_ID not configured")
  else
    let player := jsStr player
    let serverId := jsStr serverId
    let pollId := newPollId now randomText
    await (pollReply pollId player serverId reason interaction.userTag)
    await .fetchReply
    modifyState (fun s => s.createPoll pollId player serverId reason interaction.userTag msg)

/-- A `/tempbanvote` request on `Steve` with a reason. -/
def requestWithReason : CommandInteraction :=
  { player := some "Steve", reason := some "griefing", userTag := "ann" }

/-- A `/tempbanvote` request on `Steve` without a reason. -/
def requestNoReason : CommandInteraction :=
  { player := some "Steve", reason := none, userTag := "ann" }

/-- The message of the reply. -/
def replyMessage : Message := { id := "m9", channelId := "c1" }

/-- A poll whose reason holds the replacement pattern `$$`. -/
def pollDollarReason : Poll :=
  newPoll "Steve" "srv1" "stole $$ from me" "ann" 7 "m1" "c1"

/-- A state whose registry holds `pollPassing` under the id that the generator
produces for `Date.now() = 0` and the random text `0.abcdefgh`. -/
def stateCollision : State :=
  { heap := [pollPassing], polls := [("poll_0_abcdef", 0)],
    timers := [⟨7, 300000, "poll_0_abcdef"⟩] }

/-! ## Interleaved execution

Several handlers are in progress at once: each runs without interruption from
one `await` to the next, and between two such stretches any other handler may
run. -/

/-- The synchronous code at the head of a task runs, up to the next `await` or
to the end of the task. -/
def advance {α : Type} : Task α → State → List Event → Task α × State × List Event
  | .get k, s, t => advance (k s) s t
  | .set s1 k, _, t => advance k s1 t
  | .console l k, s, t => advance k s (t ++ [.console l])
  | .pure a, s, t => (.pure a, s, t)
  | .throw e, s, t => (.throw e, s, t)
  | .call c k, s, t => (.call c k, s, t)
  | .getServerInfo i k, s, t => (.getServerInfo i k, s, t)
  | .executeCommand i c k, s, t => (.executeCommand i c k, s, t)

/-- A task suspended at an `await` is resumed: the awaited call answers and the
code after it runs up to the next `await`. A task that has ended stays as it
is. -/
def resume {α : Type} (W : World) : Task α → State → List Event → Task α × State × List Event
  | .call c k, s, t => advance (k (W.call t c)) s (t ++ [.call c (W.call t c)])
  | .getServerInfo i k, s, t =>
    advance (k (W.getServerInfo t i)) s (t ++ [.getServerInfo i (W.getServerInfo t i)])
  | .executeCommand i c k, s, t =>
    advance (k (W.executeCommand t i c)) s
      (t ++ [.executeCommand i c (W.executeCommand t i c)])
  | x, s, t => advance x s t

/-- A handler in progress: `fresh` when its event has not been dispatched yet,
`suspended` once it has run up to an `await` (or to its end). -/
inductive Thread where
  | fresh (task : Task Unit)
  | suspended (task : Task Unit)

/-- Whether a handler has run to its end. -/
def Thread.ended : Thread → Bool
  | .suspended (.pure _) => true
  | .suspended (.throw _) => true
  | _ => false

/-- One turn of a handler: a fresh one is dispatched and runs up to its first
`await`, a suspended one is resumed. -/
def Thread.turn (W : World) : Thread → State → List Event → Thread × State × List Event
  | .fresh x, s, t => (.suspended (advance x s t).1, (advance x s t).2.1, (advance x s t).2.2)
  | .suspended x, s, t =>
    (.suspended (resume W x s t).1, (resume W x s t).2.1, (resume W x s t).2.2)

/-- The handlers take turns in the order of the schedule, a list of positions
in the pool. -/
def interleave (W : World) : List Nat → List Thread → State → List Event →
    List Thread × State × List Event
  | [], pool, s, t => (pool, s, t)
  | i :: rest, pool, s, t =>
    match pool[i]? with
    | none => interleave W rest pool s t
    | some th =>
      interleave W rest (pool.set i (th.turn W s t).1) (th.turn W s t).2.1 (th.turn W s t).2.2

/-- Two resolution triggers for `poll_x`: the deadline timer firing, which
calls `endPoll`, and a privileged press of the End Poll button. -/
def racePool : List Thread :=
  [.fresh (endPoll envBot "poll_x"), .fresh (onButton envBot endPressPrivileged)]

/-- The timer fires; the press is dispatched and, after `deferUpdate`, enters
`endPoll` while the first resolution waits for the channel; then the first
resolution runs through its six awaits, then the second. -/
def raceSchedule : List Nat := [0, 1, 1, 0, 0, 0, 0, 0, 0, 1, 1, 1, 1, 1, 1]

/-- The first resolution runs to its end before the press is dispatched. -/
def sequentialSchedule : List Nat := [0, 0, 0, 0, 0, 0, 0, 1, 1]

/-- The call a handler is suspended at; the empty text when it is not suspended
at an `await`. -/
def Thread.awaited : Thread → String
  | .suspended (.call (.fetchChannel _) _) => "channels.fetch"
  | .suspended (.call (.fetchMessage _ _) _) => "messages.fetch"
  | .suspended (.call (.edit _ _ _ _) _) => "message.edit"
  | .suspended (.call (.send _ _) _) => "channel.send"
  | .suspended (.call _ _) => "interaction"
  | .suspended (.getServerInfo _ _) => "getServerInfo"
  | .suspended (.executeCommand _ _ _) => "executeCommand"
  | _ => ""

/-- The resolution of `poll_x` alone, after `n` turns: the call it is suspended
at and whether the registry has an entry for `poll_x`. -/
def resolutionAfter (n : Nat) : List String × Bool :=
  ((interleave worldOnline (List.replicate n 0) [.fresh (endPoll envBot "poll_x")]
      statePassing []).1.map Thread.awaited,
   (interleave worldOnline (List.replicate n 0) [.fresh (endPoll envBot "poll_x")]
      statePassing []).2.1.polls.has "poll_x")

/-- A press of a button of `poll_x` whose action is none of the three known
ones, by the user `a`. -/
def unknownPress : Interaction :=
  { customId := "tempban_maybe:poll_x", userId := "a", member := some ["Member"] }

/-- A press of the Yes button of `poll_x` by the user `d`, who has not voted. -/
def votePressYesNew : Interaction :=
  { customId := "tempban_yes:poll_x", userId := "d", member := some ["Member"] }

/-- Collaborators where the command succeeds and `channel.send` rejects the
confirmation notice (the text that starts with the check mark). -/
def worldNoticeRaises : World :=
  { call := fun _ c =>
      match c with
      | .send _ x => if x.data.head? = some '✅' then .error "Missing Access" else .ok ()
      | _ => .ok ()
    getServerInfo := fun _ _ => .ok 1
    executeCommand := fun _ _ _ => .ok { success := true, error := none } }

/-- An environment whose command template names the player twice. -/
def envTwoTokens : Env :=
  { DISCORD_REQUIRED_ROLE := some "Bot", DISCORD_START_ROLE := none,
    DEFAULT_SERVER_ID := some "srv1",
    TEMPBAN_COMMAND_FORMAT := some "kick \x7bplayer\x7d; tempban \x7bplayer\x7d 30m \x7breason\x7d" }

/-- A poll whose target holds the text of the reason token. -/
def pollTokenTarget : Poll :=
  newPoll "x\x7breason\x7d" "srv1" "griefing" "ann" 7 "m1" "c1"

/-- A poll whose target is the replacement pattern `$&`. -/
def pollPatternTarget : Poll :=
  newPoll "$&" "srv1" "griefing" "ann" 7 "m1" "c1"

/-- A resolution of `poll_x` by the deadline timer and a press of its Yes button
by the user `d`. -/
def votePool : List Thread :=
  [.fresh (endPoll envBot "poll_x"), .fresh (onButton envBot votePressYesNew)]

/-- The timer fires and the resolution runs up to `message.edit`; the press is
dispatched while the edit is awaited; the resolution runs to its end; the
handler of the press ends. -/
def voteDuringEditSchedule : List Nat := [0, 0, 0, 1, 0, 0, 0, 0, 1]

/-- The resolution runs to its end before the press is dispatched. -/
def voteAfterSchedule : List Nat := [0, 0, 0, 0, 0, 1, 1]

/-! ## The slash-command branch of the `interactionCreate` handler -/

/-- What the handler reads of a slash-command interaction before it hands it to
a command handler: `commandName` and the names of the roles of `member` (`none`
when there is no member). -/
structure ChatInputInteraction where
  commandName : String
  member : Option (List String)

/-- The fields of the interaction that `hasRequiredRole` reads. -/
def ChatInputInteraction.base (interaction : ChatInputInteraction) : Interaction :=
  { customId := "", userId := "", member := interaction.member }

/-- The function `hasRoleByName` (lines 127-132). -/
def hasRoleByName (interaction : ChatInputInteraction) (roleName : String) : Bool :=
  if !truthy (some roleName) then false
  else
    match interaction.member with
    | none => false
    | some roles => roles.any (fun name => name = roleName)

/-- The calls `handleServers(interaction)`, ..., `handleTempBanVote(interaction)`
of the dispatch, each as the asynchronous code it runs. -/
structure Handlers where
  handleServers : Task Unit
  handleStatus : Task Unit
  handleStart : Task Unit
  handleStop : Task Unit
  handleRestart : Task Unit
  handlePlayers : Task Unit
  handleRAM : Task Unit
  handleConsole : Task Unit
  handleTempBanVote : Task Unit

/-- The `switch (commandName)` of lines 207-237. -/
def dispatch (H : Handlers) (commandName : String) : Task Unit :=
  if commandName = "servers" then H.handleServers
  else if commandName = "status" then H.handleStatus
  else if commandName = "start" then H.handleStart
  else if commandName = "stop" then H.handleStop
  else if commandName = "restart" then H.handleRestart
  else if commandName = "players" then H.handlePlayers
  else if commandName = "ram" then H.handleRAM
  else if commandName = "console" then H.handleConsole
  else if commandName = "tempbanvote" then H.handleTempBanVote
  else await (.editReply "Unknown command")

/-- The reply of line 197. -/
def startRoleNotice (startRole commandName : String) : String :=
  "❌ You need the **" ++ startRole ++ "** role to run /" ++ commandName ++ "."

/-- The reply of line 202. -/
def requiredRoleNotice (env : Env) : String :=
  "❌ You need the **" ++ jsStr env.DISCORD_REQUIRED_ROLE ++ "** role to use this command."

/-- Lines 193-237: the role checks and, when they pass, the dispatch. -/
def checkedDispatch (env : Env) (H : Handlers) (interaction : ChatInputInteraction) :
    Task Unit := do
  let commandName := interaction.commandName
  if commandName = "start" ∨ commandName = "tempbanvote" then
    let startRole := orElse env.DISCORD_START_ROLE "Approved"
    if !hasRoleByName interaction startRole then
      await (.editReply (startRoleNotice startRole commandName))
    else
      dispatch H commandName
  else
    if !hasRequiredRole env interaction.base then
      await (.editReply (requiredRoleNotice env))
    else
      dispatch H commandName

/-- The `catch (error)` block of lines 238-251. `deferred` is the value of
`interaction.deferred`. -/
def onCommandError (commandName : String) (deferred : Bool) (error : String) : Task Unit := do
  console ("Error handling " ++ commandName ++ ": " ++ error)
  try
    if deferred then
      await (.editReply ("❌ Error: " ++ error))
    else
      await (.reply ("❌ Error: " ++ error) true)
  catch replyError =>
    console ("Failed to send error message: " ++ replyError)

/-- Lines 185-251 of the handler: a slash command. `interaction.deferred` is
true from the moment `deferReply` has resolved, so an error raised by
`deferReply` is handled with `deferred = false` and every later one with
`deferred = true`; the handling of an error raises none. -/
def onCommand (env : Env) (H : Handlers) (interaction : ChatInputInteraction) : Task Unit :=
  tryCatch
    (do
      await .deferReply
      tryCatch (checkedDispatch env H interaction)
        (onCommandError interaction.commandName true))
    (onCommandError interaction.commandName false)

/-- The handlers of the bot at a `/tempbanvote` request: `handleTempBanVote` on
the options of the request; the other handlers are `others`. -/
def Handlers.withTempBanVote (others : Handlers) (env : Env) (request : CommandInteraction)
    (now : Nat) (randomText : String) (msg : Message) : Handlers :=
  { others with handleTempBanVote := Bot.handleTempBanVote env request now randomText msg }

/-- Handlers that do nothing. -/
def idleHandlers : Handlers :=
  { handleServers := pure (), handleStatus := pure (), handleStart := pure (),
    handleStop := pure (), handleRestart := pure (), handlePlayers := pure (),
    handleRAM := pure (), handleConsole := pure (), handleTempBanVote := pure () }

/-- A `/tempbanvote` command by a member whose only role is `Member`. -/
def tempbanvoteByMember : ChatInputInteraction :=
  { commandName := "tempbanvote", member := some ["Member"] }

/-- A `/tempbanvote` command by a member with the role `Approved`. -/
def tempbanvoteByApproved : ChatInputInteraction :=
  { commandName := "tempbanvote", member := some ["Approved"] }

/-- A `/stop` command by a member whose only role is `Approved`. -/
def stopByApproved : ChatInputInteraction :=
  { commandName := "stop", member := some ["Approved"] }

/-- Whether an effect is a line of the console or one of the calls
`deferReply`, `reply` and `editReply` with a text. -/
def Event.isReplyOrLog : Event → Bool
  | .console _ => true
  | .call .deferReply _ => true
  | .call (.reply _ _) _ => true
  | .call (.editReply _) _ => true
  | _ => false

/-! ## The wrapper `ExarotonAPI.executeCommand` -/

/-- What the calls of one `executeCommand` on the `server` object of the
exaroton client answer: `server.get()` resolves with the status it stores in
`server.status` or rejects, `server.subscribe(["console"])`,
`server.executeCommand(command)` and `server.unsubscribe(["console"])` return or
raise; an answer is a value or the message of the error. The promise of lines
134-144 has a `.catch` and never rejects. -/
structure ServerAnswers where
  get : Except String Nat
  subscribe : Except String Unit
  executeCommand : Except String Unit
  unsubscribe : Except String Unit

/-- A call to the `server` object. -/
inductive ServerCall where
  | get
  | subscribe
  | executeCommand (command : String)
  | unsubscribe
deriving DecidableEq

/-- The object that `ExarotonAPI.executeCommand` returns; `warning` is false
when the object has no such field. -/
structure CommandReply where
  success : Bool
  message : String
  warning : Bool
deriving DecidableEq

/-- The error of line 124. -/
def notOnlineMessage (status : Nat) : String :=
  "Server must be online to execute commands (current status: " ++ toString status ++ ")"

/-- The `try` block of lines 119-154: the value it returns or the message of
the error it raises, and the calls it made to the server object. The lines of
the console are left out. -/
def executeCommandAttempt (A : ServerAnswers) (command : String) :
    Except String CommandReply × List ServerCall :=
  match A.get with
  | .error e => (.error e, [.get])
  | .ok status =>
    if status ≠ 1 then (.error (notOnlineMessage status), [.get])
    else
      match A.subscribe with
      | .error e => (.error e, [.get, .subscribe])
      | .ok _ =>
        match A.executeCommand with
        | .error e => (.error e, [.get, .subscribe, .executeCommand command])
        | .ok _ =>
          match A.unsubscribe with
          | .error e => (.error e, [.get, .subscribe, .executeCommand command, .unsubscribe])
          | .ok _ =>
            (.ok { success := true, message := "Command executed", warning := false },
              [.get, .subscribe, .executeCommand command, .unsubscribe])

/-- The method `ExarotonAPI.executeCommand` (exaroton.js, lines 116-177): the
`try` block and, when it raises, the `catch (e)` block, whose own
`server.unsubscribe()` has its error dropped. The result is the object returned
or the message of the error raised, with the calls made to the server
object. -/
def ExarotonAPI.executeCommand (A : ServerAnswers) (command : String) :
    Except String CommandReply × List ServerCall :=
  match executeCommandAttempt A command with
  | (.ok reply, calls) => (.ok reply, calls)
  | (.error message, calls) =>
    if containsText message "Invalid command" then
      (.ok { success := true, message := "Command sent (check server console for execution)",
             warning := true }, calls ++ [.unsubscribe])
    else
      (.error ("Failed to execute command: " ++ message), calls ++ [.unsubscribe])

/-- Whether a call to the server object sends a command. -/
def ServerCall.isExecuteCommand : ServerCall → Bool
  | .executeCommand _ => true
  | _ => false

/-- Answers of a server that is online and accepts the command. -/
def answersOnline : ServerAnswers :=
  { get := .ok 1, subscribe := .ok (), executeCommand := .ok (), unsubscribe := .ok () }

/-- Answers of a server that is offline (status 0). -/
def answersOffline : ServerAnswers :=
  { get := .ok 0, subscribe := .ok (), executeCommand := .ok (), unsubscribe := .ok () }

/-- Answers of a server that is online and whose REST API rejects the command
as invalid. -/
def answersInvalid : ServerAnswers :=
  { get := .ok 1, subscribe := .ok (), executeCommand := .error "Invalid command",
    unsubscribe := .ok () }

/-- Answers of a server that is online and whose command call times out. -/
def answersTimeout : ServerAnswers :=
  { get := .ok 1, subscribe := .ok (), executeCommand := .error "timeout",
    unsubscribe := .ok () }

/-! ## The route `PUT /api/servers/:id/ram` -/

/-- A value of a parsed request body; `undefined` is the value of a field the
body does not have. A number is a finite one. An object or an array comes with
the text its `toString` gives, which is what a comparison with a number
converts. -/
inductive JSValue where
  | undefined
  | null
  | bool (b : Bool)
  | number (x : ℚ)
  | string (s : String)
  | object (text : String)
deriving DecidableEq

/-- Whether a value is truthy: `!value` is its negation. -/
def JSValue.truthy : JSValue → Bool
  | .undefined => false
  | .null => false
  | .bool b => b
  | .number x => x ≠ 0
  | .string s => s ≠ ""
  | .object _ => true

/-- The number a value is converted to when it is compared with a number;
`none` is `NaN`. `stringToNumber` is the conversion of a text. -/
def JSValue.toNumber (stringToNumber : String → Option ℚ) : JSValue → Option ℚ
  | .undefined => none
  | .null => some 0
  | .bool b => some (if b then 1 else 0)
  | .number x => some x
  | .string s => stringToNumber s
  | .object text => stringToNumber text

/-- The comparison `value < n` with a number `n`; false when the value converts
to `NaN`. -/
def JSValue.lt (stringToNumber : String → Option ℚ) (value : JSValue) (n : ℚ) : Bool :=
  match value.toNumber stringToNumber with
  | none => false
  | some x => x < n

/-- The comparison `value > n` with a number `n`; false when the value converts
to `NaN`. -/
def JSValue.gt (stringToNumber : String → Option ℚ) (value : JSValue) (n : ℚ) : Bool :=
  match value.toNumber stringToNumber with
  | none => false
  | some x => x > n

/-- What the route answers: `res.status(400).json(...)` with its error text,
`res.json(result)`, or `res.status(500).json(...)` with the message of the
error. -/
inductive RamResponse where
  | badRequest (error : String)
  | result (reply : CommandReply)
  | serverError (error : String)
deriving DecidableEq

/-- The handler of `router.put('/servers/:id/ram', ...)` (api.js, lines 143-157)
on the value `ram` of `req.body.ram` and the parameter `id`: the response and
the calls made to `setRAM`. `setRAM` is what `req.exarotonAPI.setRAM` resolves
to or the message of the error it rejects with. -/
def putServerRam (stringToNumber : String → Option ℚ)
    (setRAM : String → JSValue → Except String CommandReply) (id : String) (ram : JSValue) :
    RamResponse × List (String × JSValue) :=
  if !ram.truthy || ram.lt stringToNumber 2 || ram.gt stringToNumber 16 then
    (.badRequest "RAM must be between 2 and 16 GB", [])
  else
    match setRAM id ram with
    | .ok result => (.result result, [(id, ram)])
    | .error message => (.serverError message, [(id, ram)])

/-- The conversion of a text to a number on the texts made of decimal digits
(the empty text gives 0). A text with any other character is given `NaN`, which
is the conversion of `abc`. -/
def digitsToNumber (s : String) : Option ℚ :=
  if s.data.all Char.isDigit then
    some ((s.data.foldl (fun n c => 10 * n + (c.toNat - 48)) 0 : Nat) : ℚ)
  else none

/-- A `setRAM` that accepts every call. -/
def setRAMAccepts : String → JSValue → Except String CommandReply :=
  fun _ _ => .ok { success := true, message := "RAM set", warning := false }

/-- What `endPoll` reads of the outcome of `exarotonAPI.executeCommand` when the
executor is the wrapper, as bot.js wires it (line 17): `res.success` and
`res.error`, a field the returned object does not have, or the message of the
error raised. -/
def wrapperResult (A : ServerAnswers) (command : String) : Except String CmdResult :=
  match (ExarotonAPI.executeCommand A command).1 with
  | .ok reply => .ok { success := reply.success, error := none }
  | .error message => .error message

/-- Answers of a server that is online and accepts the command, with
`server.unsubscribe(["console"])` raising `boom`. -/
def answersUnsubscribeRaises : ServerAnswers :=
  { get := .ok 1, subscribe := .ok (), executeCommand := .ok (), unsubscribe := .error "boom" }

/-! # Theorems -/

/-! ## Facts about `JSSet` -/

theorem JSSet.ext_items {a b : JSSet} (h : a.items = b.items) : a = b := by
  cases a; cases b; cases h; rfl

theorem JSSet.mem_iff (s : JSSet) (u : String) : u ∈ s ↔ u ∈ s.items := Iff.rfl

theorem JSSet.mem_toFinset (s : JSSet) (u : String) : u ∈ s.toFinset ↔ u ∈ s := by
  simp [JSSet.toFinset, JSSet.mem_iff]

theorem JSSet.card_toFinset (s : JSSet) : s.toFinset.card = s.size := by
  simp [JSSet.toFinset, JSSet.size, List.toFinset_card_of_nodup s.nodup]

theorem JSSet.not_mem_empty (u : String) : ¬ u ∈ JSSet.empty := by
  simp [JSSet.mem_iff, JSSet.empty]

theorem JSSet.mem_delete (s : JSSet) (v u : String) : u ∈ s.delete v ↔ u ∈ s ∧ u ≠ v := by
  simp only [JSSet.mem_iff, JSSet.delete]
  rw [s.nodup.mem_erase_iff]
  exact and_comm

theorem JSSet.items_add_of_not_mem (s : JSSet) (v : String) (h : ¬ v ∈ s) :
    (s.add v).items = s.items ++ [v] := by
  have h2 : ¬ v ∈ s.items := h
  simp [JSSet.add, h2]

theorem JSSet.add_of_mem (s : JSSet) (v : String) (h : v ∈ s) : s.add v = s := by
  have h2 : v ∈ s.items := h
  simp [JSSet.add, h2]

theorem JSSet.mem_add (s : JSSet) (v u : String) : u ∈ s.add v ↔ u ∈ s ∨ u = v := by
  by_cases h : v ∈ s
  · rw [JSSet.add_of_mem s v h]
    constructor
    · exact Or.inl
    · rintro (h1 | h1)
      · exact h1
      · exact h1 ▸ h
  · simp [JSSet.mem_iff, JSSet.items_add_of_not_mem s v h]

theorem JSSet.not_mem_delete (s : JSSet) (v : String) : ¬ v ∈ s.delete v := by
  simp [JSSet.mem_delete]

theorem JSSet.delete_of_not_mem (s : JSSet) (v : String) (h : ¬ v ∈ s) : s.delete v = s := by
  apply JSSet.ext_items
  have h2 : ¬ v ∈ s.items := h
  simp [JSSet.delete, List.erase_of_not_mem h2]

theorem JSSet.delete_add_delete (s : JSSet) (v : String) :
    ((s.delete v).add v).delete v = s.delete v := by
  apply JSSet.ext_items
  have h : ¬ v ∈ (s.delete v).items := JSSet.not_mem_delete s v
  show ((s.delete v).add v).items.erase v = (s.delete v).items
  rw [JSSet.items_add_of_not_mem _ _ (JSSet.not_mem_delete s v), List.erase_append_right _ h]
  simp

theorem JSSet.delete_delete (s : JSSet) (v : String) : (s.delete v).delete v = s.delete v :=
  JSSet.delete_of_not_mem _ _ (JSSet.not_mem_delete s v)

/-! ## Facts about `castVote` -/

theorem castVote_yes (p : Poll) (v a : String) :
    (castVote p v a).yes
      = if a = "tempban_yes" then (p.yes.delete v).add v else p.yes.delete v := by
  unfold castVote
  by_cases h : a = "tempban_yes"
  · subst h; simp
  · by_cases h2 : a = "tempban_no" <;> simp [h, h2]

theorem castVote_no (p : Poll) (v a : String) :
    (castVote p v a).no
      = if a = "tempban_no" then (p.no.delete v).add v else p.no.delete v := by
  unfold castVote
  by_cases h : a = "tempban_yes"
  · subst h; simp
  · by_cases h2 : a = "tempban_no" <;> simp [h, h2]

theorem Choice.action_eq_yes (c : Choice) : c.action = "tempban_yes" ↔ c = .Yes := by
  cases c <;> simp [Choice.action]

theorem Choice.action_eq_no (c : Choice) : c.action = "tempban_no" ↔ c = .No := by
  cases c <;> simp [Choice.action]

theorem mem_castVote_yes (p : Poll) (v : String) (c : Choice) (u : String) :
    u ∈ (castVote p v c.action).yes ↔ (u ∈ p.yes ∧ u ≠ v) ∨ (u = v ∧ c = .Yes) := by
  rw [castVote_yes]
  cases c <;> simp [Choice.action, JSSet.mem_add, JSSet.mem_delete]

theorem mem_castVote_no (p : Poll) (v : String) (c : Choice) (u : String) :
    u ∈ (castVote p v c.action).no ↔ (u ∈ p.no ∧ u ≠ v) ∨ (u = v ∧ c = .No) := by
  rw [castVote_no]
  cases c <;> simp [Choice.action, JSSet.mem_add, JSSet.mem_delete]

theorem castVote_eq (p : Poll) (v a : String) :
    castVote p v a =
      { p with
        yes := if a = "tempban_yes" then (p.yes.delete v).add v else p.yes.delete v,
        no := if a = "tempban_no" then (p.no.delete v).add v else p.no.delete v } := by
  unfold castVote
  by_cases h : a = "tempban_yes"
  · subst h; simp
  · by_cases h2 : a = "tempban_no" <;> simp [h, h2]

theorem castVote_castVote (p : Poll) (v a b : String) :
    castVote (castVote p v a) v b = castVote p v b := by
  rw [castVote_eq (castVote p v a) v b, castVote_eq p v a, castVote_eq p v b]
  by_cases h : a = "tempban_yes" <;> by_cases h2 : a = "tempban_no" <;>
    simp [h, h2, JSSet.delete_add_delete, JSSet.delete_delete]

theorem castVotes_cons (p : Poll) (e : String × Choice) (es : List (String × Choice)) :
    castVotes p (e :: es) = castVotes (castVote p e.1 e.2.action) es := rfl

theorem castVote_disjoint (p : Poll) (v : String) (c : Choice)
    (h : ∀ u, ¬ (u ∈ p.yes ∧ u ∈ p.no)) :
    ∀ u, ¬ (u ∈ (castVote p v c.action).yes ∧ u ∈ (castVote p v c.action).no) := by
  intro u
  rw [mem_castVote_yes, mem_castVote_no]
  rintro ⟨h1 | h1, h2 | h2⟩
  · exact h u ⟨h1.1, h2.1⟩
  · exact h1.2 h2.1
  · exact h2.2 h1.1
  · cases c <;> simp_all

theorem castVotes_disjoint (votes : List (String × Choice)) :
    ∀ p : Poll, (∀ u, ¬ (u ∈ p.yes ∧ u ∈ p.no)) →
      ∀ u, ¬ (u ∈ (castVotes p votes).yes ∧ u ∈ (castVotes p votes).no) := by
  induction votes with
  | nil => intro p h; exact h
  | cons e es ih =>
    intro p h
    rw [castVotes_cons]
    exact ih _ (castVote_disjoint p e.1 e.2 h)

theorem castVotes_voters (votes : List (String × Choice)) :
    ∀ p : Poll, ∀ u, (u ∈ (castVotes p votes).yes ∨ u ∈ (castVotes p votes).no) ↔
      (u ∈ p.yes ∨ u ∈ p.no ∨ u ∈ votes.map Prod.fst) := by
  induction votes with
  | nil => intro p u; simp [castVotes]
  | cons e es ih =>
    intro p u
    rw [castVotes_cons, ih, mem_castVote_yes, mem_castVote_no]
    simp only [List.map_cons, List.mem_cons]
    by_cases huv : u = e.1
    · cases hc : e.2 <;> simp [huv]
    · simp [huv]

/-- C1: in every state reached from a freshly created poll by any sequence of
cast-vote events, no voter identity is in both the yes set and the no set. -/
theorem C1_yes_no_disjoint (player serverId reason initiator : String) (timeout : Nat)
    (messageId channelId : String) (votes : List (String × Choice)) (u : String) :
    ¬ (u ∈ (castVotes (newPoll player serverId reason initiator timeout messageId channelId)
          votes).yes ∧
       u ∈ (castVotes (newPoll player serverId reason initiator timeout messageId channelId)
          votes).no) := by
  apply castVotes_disjoint
  intro w hw
  exact JSSet.not_mem_empty w hw.1

/-- C2: the vote step of voter `v` with choice `c` yields
`yes' = (yes \ {v}) ∪ ({v} if c = Yes)` and `no' = (no \ {v}) ∪ ({v} if c = No)`:
`v` ends in the set matching `c` and not in the other, and every other voter is
in a set after the vote exactly when it was before. -/
theorem C2_castVote_sets (p : Poll) (v : String) (c : Choice) :
    (castVote p v c.action).yes.toFinset
        = (p.yes.toFinset \ {v}) ∪ (if c = .Yes then {v} else ∅) ∧
    (castVote p v c.action).no.toFinset
        = (p.no.toFinset \ {v}) ∪ (if c = .No then {v} else ∅) ∧
    (v ∈ (castVote p v c.action).yes ↔ c = .Yes) ∧
    (v ∈ (castVote p v c.action).no ↔ c = .No) ∧
    (∀ u, u ≠ v → ((u ∈ (castVote p v c.action).yes ↔ u ∈ p.yes) ∧
                   (u ∈ (castVote p v c.action).no ↔ u ∈ p.no))) := by
  refine ⟨?_, ?_, ?_, ?_, ?_⟩
  · ext u
    rw [JSSet.mem_toFinset, mem_castVote_yes]
    cases c <;> simp only [JSSet.mem_toFinset, Finset.mem_union, Finset.mem_sdiff, Finset.mem_singleton, if_true, if_false, reduceCtorEq, Finset.not_mem_empty, and_true, and_false, or_false]
  · ext u
    rw [JSSet.mem_toFinset, mem_castVote_no]
    cases c <;> simp only [JSSet.mem_toFinset, Finset.mem_union, Finset.mem_sdiff, Finset.mem_singleton, if_true, if_false, reduceCtorEq, Finset.not_mem_empty, and_true, and_false, or_false]
  · rw [mem_castVote_yes]; simp
  · rw [mem_castVote_no]; simp
  · intro u hu
    rw [mem_castVote_yes, mem_castVote_no]
    simp [hu]

/-- C3: casting the same choice twice in a row by the same voter yields the
same poll, hence the same yes and no sets, as casting it once. -/
theorem C3_castVote_idempotent (p : Poll) (v : String) (c : Choice) :
    castVote (castVote p v c.action) v c.action = castVote p v c.action :=
  castVote_castVote p v c.action c.action

/-- C4: the latest choice of a voter replaces the earlier one: casting `c1` and
then `c2` for `v` yields the same poll, hence the same tallies, as casting only
`c2`. -/
theorem C4_latest_choice_wins (p : Poll) (v : String) (c1 c2 : Choice) :
    castVote (castVote p v c1.action) v c2.action = castVote p v c2.action ∧
    (castVote (castVote p v c1.action) v c2.action).yes.size
        = (castVote p v c2.action).yes.size ∧
    (castVote (castVote p v c1.action) v c2.action).no.size
        = (castVote p v c2.action).no.size := by
  rw [castVote_castVote]
  exact ⟨rfl, rfl, rfl⟩

/-- C5: for every sequence of yes/no votes applied to a freshly created poll,
`|yes| + |no|` is the number of distinct voter identities in the sequence. -/
theorem C5_each_voter_counted_once (player serverId reason initiator : String) (timeout : Nat)
    (messageId channelId : String) (votes : List (String × Choice)) :
    (castVotes (newPoll player serverId reason initiator timeout messageId channelId)
        votes).yes.size +
    (castVotes (newPoll player serverId reason initiator timeout messageId channelId)
        votes).no.size
      = (votes.map Prod.fst).toFinset.card := by
  set q := castVotes (newPoll player serverId reason initiator timeout messageId channelId)
    votes with hq
  have hdis : Disjoint q.yes.toFinset q.no.toFinset := by
    rw [Finset.disjoint_left]
    intro u h1 h2
    rw [JSSet.mem_toFinset] at h1 h2
    exact castVotes_disjoint votes _ (fun w hw => JSSet.not_mem_empty w hw.1) u ⟨h1, h2⟩
  have hun : q.yes.toFinset ∪ q.no.toFinset = (votes.map Prod.fst).toFinset := by
    ext u
    rw [Finset.mem_union, JSSet.mem_toFinset, JSSet.mem_toFinset, List.mem_toFinset, hq,
      castVotes_voters]
    constructor
    · rintro (h | h | h)
      · exact absurd h (JSSet.not_mem_empty u)
      · exact absurd h (JSSet.not_mem_empty u)
      · exact h
    · intro h; exact Or.inr (Or.inr h)
  rw [← JSSet.card_toFinset, ← JSSet.card_toFinset, ← Finset.card_union_of_disjoint hdis, hun]

/-! ## Facts about `run` -/

@[simp] theorem run_pure {α : Type} (W : World) (a : α) (s : State) (t : List Event) :
    run W (pure a : Task α) s t = ⟨.ok a, s, t⟩ := rfl

@[simp] theorem run_throw {α : Type} (W : World) (e : String) (s : State) (t : List Event) :
    run W (throw e : Task α) s t = ⟨.error e, s, t⟩ := rfl

theorem run_task_bind {α β : Type} (W : World) (x : Task α) (f : α → Task β) :
    ∀ (s : State) (t : List Event), run W (Task.bind x f) s t =
      match run W x s t with
      | ⟨.ok a, s1, t1⟩ => run W (f a) s1 t1
      | ⟨.error e, s1, t1⟩ => ⟨.error e, s1, t1⟩ := by
  induction x with
  | pure a => intro s t; rfl
  | throw e => intro s t; rfl
  | get k ih => intro s t; exact ih s s t
  | set s1 k ih => intro s t; exact ih s1 t
  | console l k ih => intro s t; exact ih s _
  | call c k ih => intro s t; exact ih _ s _
  | getServerInfo i k ih => intro s t; exact ih _ s _
  | executeCommand i c k ih => intro s t; exact ih _ s _

theorem run_bind {α β : Type} (W : World) (x : Task α) (f : α → Task β)
    (s : State) (t : List Event) : run W (x >>= f) s t =
      match run W x s t with
      | ⟨.ok a, s1, t1⟩ => run W (f a) s1 t1
      | ⟨.error e, s1, t1⟩ => ⟨.error e, s1, t1⟩ :=
  run_task_bind W x f s t

theorem run_tryCatch {α : Type} (W : World) (x : Task α) (h : String → Task α) :
    ∀ (s : State) (t : List Event), run W (tryCatch x h) s t =
      match run W x s t with
      | ⟨.ok a, s1, t1⟩ => ⟨.ok a, s1, t1⟩
      | ⟨.error e, s1, t1⟩ => run W (h e) s1 t1 := by
  show ∀ (s : State) (t : List Event), run W (Task.tryCatch x h) s t = _
  induction x with
  | pure a => intro s t; rfl
  | throw e => intro s t; rfl
  | get k ih => intro s t; exact ih s s t
  | set s1 k ih => intro s t; exact ih s1 t
  | console l k ih => intro s t; exact ih s _
  | call c k ih => intro s t; exact ih _ s _
  | getServerInfo i k ih => intro s t; exact ih _ s _
  | executeCommand i c k ih => intro s t; exact ih _ s _

theorem run_tryFinally {α β : Type} (W : World) (x : Task α) (fin : Task β) :
    ∀ (s : State) (t : List Event), run W (tryFinally x fin) s t =
      match run W x s t with
      | ⟨.ok a, s1, t1⟩ =>
        (match run W fin s1 t1 with
          | ⟨.ok _, s2, t2⟩ => ⟨.ok a, s2, t2⟩
          | ⟨.error e, s2, t2⟩ => ⟨.error e, s2, t2⟩)
      | ⟨.error e, s1, t1⟩ =>
        (match run W fin s1 t1 with
          | ⟨.ok _, s2, t2⟩ => ⟨.error e, s2, t2⟩
          | ⟨.error e2, s2, t2⟩ => ⟨.error e2, s2, t2⟩) := by
  show ∀ (s : State) (t : List Event),
    run W (Task.bind (Task.tryFinally x (fun _ => fin)) (fun r => Task.pure r.1)) s t = _
  induction x with
  | pure a =>
    intro s t
    simp only [Task.tryFinally, run_task_bind, run]
    rcases run W fin s t with ⟨r, s2, t2⟩
    cases r <;> rfl
  | throw e =>
    intro s t
    simp only [Task.tryFinally, run_task_bind, run]
    rcases run W fin s t with ⟨r, s2, t2⟩
    cases r <;> rfl
  | get k ih => intro s t; exact ih s s t
  | set s1 k ih => intro s t; exact ih s1 t
  | console l k ih => intro s t; exact ih s _
  | call c k ih => intro s t; exact ih _ s _
  | getServerInfo i k ih => intro s t; exact ih _ s _
  | executeCommand i c k ih => intro s t; exact ih _ s _

@[simp] theorem run_await (W : World) (c : Call) (s : State) (t : List Event) :
    run W (await c) s t = ⟨W.call t c, s, t ++ [.call c (W.call t c)]⟩ := by
  show run W (Task.settle (W.call t c)) s _ = _
  cases W.call t c <;> rfl

@[simp] theorem run_getServerInfo (W : World) (i : String) (s : State) (t : List Event) :
    run W (getServerInfo i) s t
      = ⟨W.getServerInfo t i, s, t ++ [.getServerInfo i (W.getServerInfo t i)]⟩ := by
  show run W (Task.settle (W.getServerInfo t i)) s _ = _
  cases W.getServerInfo t i <;> rfl

@[simp] theorem run_executeCommand (W : World) (i c : String) (s : State) (t : List Event) :
    run W (executeCommand i c) s t
      = ⟨W.executeCommand t i c, s, t ++ [.executeCommand i c (W.executeCommand t i c)]⟩ := by
  show run W (Task.settle (W.executeCommand t i c)) s _ = _
  cases W.executeCommand t i c <;> rfl

@[simp] theorem run_getState (W : World) (s : State) (t : List Event) :
    run W getState s t = ⟨.ok s, s, t⟩ := rfl

@[simp] theorem run_modifyState (W : World) (f : State → State) (s : State) (t : List Event) :
    run W (modifyState f) s t = ⟨.ok (), f s, t⟩ := rfl

@[simp] theorem run_console (W : World) (l : String) (s : State) (t : List Event) :
    run W (console l) s t = ⟨.ok (), s, t ++ [.console l]⟩ := rfl

@[simp] theorem run_readPoll (W : World) (ref : Nat) (s : State) (t : List Event) :
    run W (readPoll ref) s t = ⟨.ok (s.deref ref), s, t⟩ := rfl

/-! ## Facts about the process state -/

theorem State.poll?_eq_some {s : State} {id : String} {p : Poll} (h : s.poll? id = some p) :
    ∃ ref, s.polls.get id = some ref ∧ s.deref ref = p := by
  unfold State.poll? at h
  cases hg : s.polls.get id with
  | none => simp [hg] at h
  | some ref =>
    simp only [hg] at h
    exact ⟨ref, rfl, by simp [State.deref, h]⟩

@[simp] theorem State.deref_clearTimeout (s : State) (n ref : Nat) :
    (s.clearTimeout n).deref ref = s.deref ref := rfl

theorem PollMap.get_delete (m : PollMap) (id : String) : (PollMap.delete m id).get id = none := by
  simp [PollMap.get, PollMap.delete, List.find?_eq_none]

/-- C6: an end-request on an existing poll by a requester for whom
`hasRequiredRole` is false leaves the whole state (registry, poll objects,
timers) unchanged, and its only effect is one ephemeral reply: no effect of
`endPoll`, no status query, no `executeCommand`. -/
theorem C6_unprivileged_end_request (W : World) (env : Env) (i : Interaction) (s : State)
    (t : List Event) (pollId : String)
    (hparse : parseCustomId i.customId = ("tempban_end", some pollId))
    (hreg : s.polls.has pollId = true)
    (hrole : hasRequiredRole env i = false) :
    (run W (onButton env i) s t).state = s ∧
    (run W (onButton env i) s t).trace
      = t ++ [.call (.reply (if pollId = "" then "❌ Poll not found or expired."
                else roleNotice env) true)
              (W.call t (.reply (if pollId = "" then "❌ Poll not found or expired."
                else roleNotice env) true))] := by
  by_cases hne : pollId = ""
  · simp [onButton, hparse, run_bind, truthy, hne]
  · simp [onButton, hparse, run_bind, truthy, hne, jsStr, hreg, hrole]

/-- C6, at a press of End Poll by a member without the required role. -/
theorem C6_unprivileged_end_request_witness :
    (run worldOnline (onButton envBot endPressUnprivileged) statePassing []).state
      = statePassing ∧
    (run worldOnline (onButton envBot endPressUnprivileged) statePassing []).trace
      = [] ++ [.call (.reply (if "poll_x" = "" then "❌ Poll not found or expired."
                else roleNotice envBot) true)
              (worldOnline.call [] (.reply (if "poll_x" = "" then "❌ Poll not found or expired."
                else roleNotice envBot) true))] :=
  C6_unprivileged_end_request worldOnline envBot endPressUnprivileged statePassing []
    "poll_x" (by decide) (by decide) (by decide)


/-! ## Resolution: `endPoll` -/

theorem drop_length_append (t new : List Event) : (t ++ new).drop t.length = new := by
  simp

/-- C7 (amended): for every poll resolved with `|yes| ≤ |no|`, `endPoll` never
queries the server status and never invokes `executeCommand`; when the display
update (channel fetch, message fetch and message edit) succeeds, it posts the
`Poll failed` notice. -/
theorem C7_failed_poll (W : World) (env : Env) (s : State) (t : List Event) (id : String)
    (p : Poll) (hp : s.poll? id = some p) (hle : p.yes.size ≤ p.no.size) :
    (effects W (endPoll env id) s t).any Event.isGetServerInfo = false ∧
    (effects W (endPoll env id) s t).any Event.isExecuteCommand = false ∧
    ((effects W (endPoll env id) s t).any Event.isEditOk = true →
      (effects W (endPoll env id) s t).any (Event.isSend p.channelId (pollFailedNotice p))
        = true) := by
  obtain ⟨ref, hget, hderef⟩ := State.poll?_eq_some hp
  have hnot : ¬ p.yes.size > p.no.size := Nat.not_lt.mpr hle
  generalize hE : effects W (endPoll env id) s t = E
  simp only [effects, endPoll, decideOutcome, run_bind, run_tryCatch, run_tryFinally,
    run_getState, hget, run_modifyState, run_readPoll, State.deref_clearTimeout, hderef,
    run_await, hnot, if_false, run_console] at hE
  iterate 5
    try any_goals
      (generalize W.call _ _ = r at hE
       fail_if_success (clear r)
       cases r <;>
       simp only [State.deref_clearTimeout, hderef, hnot, if_false, List.append_assoc,
         drop_length_append, run_await] at hE)
  all_goals
    subst hE
    simp [Event.isGetServerInfo, Event.isExecuteCommand, Event.isEditOk, Event.isSend]

/-- C7, at a tied poll (one yes, one no) with every collaborator succeeding. -/
theorem C7_failed_poll_witness :
    (effects worldOnline (endPoll envBot "poll_x") stateTied []).any Event.isGetServerInfo
      = false ∧
    (effects worldOnline (endPoll envBot "poll_x") stateTied []).any Event.isExecuteCommand
      = false ∧
    ((effects worldOnline (endPoll envBot "poll_x") stateTied []).any Event.isEditOk = true →
      (effects worldOnline (endPoll envBot "poll_x") stateTied []).any
        (Event.isSend pollTied.channelId (pollFailedNotice pollTied)) = true) :=
  C7_failed_poll worldOnline envBot stateTied [] "poll_x" pollTied (by decide) (by decide)

/-- C7 as stated fails: a tied poll is resolved while `client.channels.fetch`
rejects, and no notice at all is posted. -/
theorem C7_counterexample :
    stateTied.poll? "poll_x" = some pollTied ∧
    pollTied.yes.size ≤ pollTied.no.size ∧
    (effects worldNoChannel (endPoll envBot "poll_x") stateTied []).any Event.isAnySend
      = false ∧
    (effects worldNoChannel (endPoll envBot "poll_x") stateTied []).any
      (Event.isSend pollTied.channelId (pollFailedNotice pollTied)) = false := by
  decide

theorem offlineNotice_contains_target (p : Poll) : containsText (offlineNotice p) p.target := by
  unfold containsText offlineNotice
  simp only [String.data_append]
  exact ⟨_, _, by simp only [List.append_assoc]; rfl⟩

theorem commandErrorNotice_contains_command (p : Poll) (command message : String) :
    containsText (commandErrorNotice p command message) command := by
  unfold containsText commandErrorNotice
  simp only [String.data_append]
  exact ⟨_, _, by simp only [List.append_assoc]; rfl⟩

/-- The run of `endPoll` on a registered poll with more yes than no votes, by
cases on what every collaborator answers. -/
theorem endPoll_passing (W : World) (env : Env) (s : State) (t : List Event) (id : String)
    (p : Poll) (hp : s.poll? id = some p) (hgt : p.yes.size > p.no.size) :
    (run W (endPoll env id) s t).state = (s.clearTimeout p.timeout).deletePoll id ∧
    (run W (endPoll env id) s t).result = .ok () ∧
    (∀ n, n ≠ 1 →
      Event.getServerInfo p.serverId (.ok n) ∈ (run W (endPoll env id) s t).trace.drop t.length →
      ((run W (endPoll env id) s t).trace.drop t.length).any Event.isExecuteCommand = false ∧
      ((run W (endPoll env id) s t).trace.drop t.length).any
        (Event.isSend p.channelId (offlineNotice p)) = true) ∧
    (Event.getServerInfo p.serverId (.ok 1) ∈ (run W (endPoll env id) s t).trace.drop t.length →
      ((run W (endPoll env id) s t).trace.drop t.length).countP Event.isExecuteCommand = 1 ∧
      ((run W (endPoll env id) s t).trace.drop t.length).countP
        (Event.isExecuteOf p.serverId (banCommand env p)) = 1) ∧
    (∀ m, Event.executeCommand p.serverId (banCommand env p) (.error m)
        ∈ (run W (endPoll env id) s t).trace.drop t.length →
      ((run W (endPoll env id) s t).trace.drop t.length).any
        (Event.isSend p.channelId (commandErrorNotice p (banCommand env p) m)) = true) ∧
    (∀ res, res.success = false →
      Event.executeCommand p.serverId (banCommand env p) (.ok res)
        ∈ (run W (endPoll env id) s t).trace.drop t.length →
      ((run W (endPoll env id) s t).trace.drop t.length).any
        (Event.isSend p.channelId (commandFailedNotice p res)) = true) := by
  obtain ⟨ref, hget, hderef⟩ := State.poll?_eq_some hp
  generalize hO : run W (endPoll env id) s t = O
  simp only [endPoll, decideOutcome, executeIfOnline, executeBan, run_bind,
    run_tryCatch, run_tryFinally, run_getState, hget, run_modifyState, run_readPoll,
    State.deref_clearTimeout, hderef, run_await, hgt, if_true, run_console,
    run_getServerInfo, run_executeCommand] at hO
  iterate 3
    try any_goals
      (generalize W.call _ _ = r at hO
       fail_if_success (clear r)
       cases r <;>
       simp only [State.deref_clearTimeout, hderef, hgt, if_true, List.append_assoc,
         drop_length_append, run_await, run_getServerInfo, run_console, run_readPoll,
         run_bind, run_tryCatch, run_executeCommand] at hO)
  try any_goals
    (generalize W.getServerInfo _ _ = r at hO
     fail_if_success (clear r)
     rcases r with e | m <;>
     [simp only [State.deref_clearTimeout, hderef, hgt, if_true, List.append_assoc,
         drop_length_append, run_await, run_getServerInfo, run_console, run_readPoll,
         run_bind, run_tryCatch, run_executeCommand] at hO;
      (by_cases hm : m = 1 <;>
       simp only [State.deref_clearTimeout, hderef, hgt, if_true, List.append_assoc,
         drop_length_append, run_await, run_getServerInfo, run_console, run_readPoll,
         run_bind, run_tryCatch, run_executeCommand, hm, ne_eq, not_true_eq_false,
         not_false_eq_true, if_false] at hO)])
  try any_goals
    (generalize W.executeCommand _ _ _ = r at hO
     fail_if_success (clear r)
     rcases r with e | ⟨_ | _, err⟩ <;>
     simp only [State.deref_clearTimeout, hderef, hgt, if_true, List.append_assoc,
         drop_length_append, run_await, run_getServerInfo, run_console, run_readPoll,
         run_bind, run_tryCatch, run_executeCommand, Bool.false_eq_true, if_false] at hO)
  iterate 3
    try any_goals
      (generalize W.call _ _ = r at hO
       fail_if_success (clear r)
       cases r <;>
       simp only [State.deref_clearTimeout, hderef, hgt, if_true, List.append_assoc,
         drop_length_append, run_await, run_getServerInfo, run_console, run_readPoll,
         run_bind, run_tryCatch, run_executeCommand] at hO)
  all_goals
    subst hO
    simp [Event.isGetServerInfo, Event.isExecuteCommand, Event.isEditOk, Event.isSend,
      Event.isExecuteOf, List.countP_cons, List.countP_nil]
  all_goals first
    | exact fun h => hm h.symm
    | (intro res h1 h2
       subst h2
       first
         | exact Or.inl rfl
         | rfl
         | exact absurd h1 (by simp))

theorem commandFailedNotice_contains_error (p : Poll) (res : CmdResult) :
    containsText (commandFailedNotice p res) (jsStr res.error) := by
  unfold containsText commandFailedNotice
  simp only [String.data_append]
  exact ⟨_, _, by simp only [List.append_assoc]; rfl⟩

/-- C9: for every registered poll with `|yes| > |no|`, if the status query
reports a status other than online (status ≠ 1), `executeCommand` is never
called and the manual-action notice, which names the target, is posted. -/
theorem C9_offline_no_command (W : World) (env : Env) (s : State) (t : List Event)
    (id : String) (p : Poll) (n : Nat) (hp : s.poll? id = some p)
    (hgt : p.yes.size > p.no.size) (hn : n ≠ 1)
    (hq : Event.getServerInfo p.serverId (.ok n) ∈ effects W (endPoll env id) s t) :
    (effects W (endPoll env id) s t).any Event.isExecuteCommand = false ∧
    (effects W (endPoll env id) s t).any (Event.isSend p.channelId (offlineNotice p)) = true ∧
    containsText (offlineNotice p) p.target :=
  ⟨((endPoll_passing W env s t id p hp hgt).2.2.1 n hn hq).1,
   ((endPoll_passing W env s t id p hp hgt).2.2.1 n hn hq).2,
   offlineNotice_contains_target p⟩

/-- C9, at a poll with two yes votes and one no vote, the server reported
offline (status 0). -/
theorem C9_offline_no_command_witness :
    (effects worldOffline (endPoll envBot "poll_x") statePassing []).any
      Event.isExecuteCommand = false ∧
    (effects worldOffline (endPoll envBot "poll_x") statePassing []).any
      (Event.isSend pollPassing.channelId (offlineNotice pollPassing)) = true ∧
    containsText (offlineNotice pollPassing) pollPassing.target :=
  C9_offline_no_command worldOffline envBot statePassing [] "poll_x" pollPassing 0
    (by decide) (by decide) (by decide) (by decide)

/-! ## Completion of `endPoll` -/

/-- Whatever the collaborators answer and whether or not the id is registered,
`endPoll` ends without an error and leaves no entry for the id. -/
theorem endPoll_completes (W : World) (env : Env) (s : State) (t : List Event) (id : String) :
    (run W (endPoll env id) s t).result = .ok () ∧
    (run W (endPoll env id) s t).state.polls.get id = none := by
  unfold endPoll
  rw [run_bind, run_getState]
  dsimp only
  cases hget : s.polls.get id with
  | none => exact ⟨rfl, hget⟩
  | some ref =>
    simp only []
    rw [run_bind, run_modifyState]
    simp only []
    rw [run_tryFinally, run_tryCatch]
    generalize run W _ (s.clearTimeout (s.deref ref).timeout) t = O
    rcases O with ⟨r, s2, t2⟩
    cases r <;> simp [PollMap.get_delete, State.deletePoll]

theorem onButton_not_found (W : World) (env : Env) (i : Interaction) (s : State)
    (t : List Event) (action id : String)
    (hparse : parseCustomId i.customId = (action, some id))
    (hget : s.polls.get id = none) :
    run W (onButton env i) s t
      = ⟨W.call t (.reply "❌ Poll not found or expired." true), s,
         t ++ [.call (.reply "❌ Poll not found or expired." true)
                 (W.call t (.reply "❌ Poll not found or expired." true))]⟩ := by
  simp [onButton, hparse, run_bind, PollMap.has, hget, jsStr]

/-- C11: once `endPoll(id)` has completed, the registry has no entry for `id`,
and every later button interaction addressed to `id`, a vote or an end-request,
is answered `Poll not found or expired`: the state is unchanged and the reply
is the only effect, so `endPoll` does not run. -/
theorem C11_resolved_poll_not_found (W : World) (env : Env) (s : State) (t : List Event)
    (id : String) (W2 : World) (env2 : Env) (i : Interaction) (action : String)
    (t2 : List Event) (hparse : parseCustomId i.customId = (action, some id)) :
    (run W (endPoll env id) s t).state.polls.get id = none ∧
    (run W (endPoll env id) s t).state.polls.has id = false ∧
    run W2 (onButton env2 i) (run W (endPoll env id) s t).state t2
      = ⟨W2.call t2 (.reply "❌ Poll not found or expired." true),
         (run W (endPoll env id) s t).state,
         t2 ++ [.call (.reply "❌ Poll not found or expired." true)
                  (W2.call t2 (.reply "❌ Poll not found or expired." true))]⟩ := by
  have h := (endPoll_completes W env s t id).2
  exact ⟨h, by simp [PollMap.has, h], onButton_not_found W2 env2 i _ t2 action id hparse h⟩

/-- C15: for every behaviour of the collaborators, `endPoll` completes without
raising and the registry contains no entry for the poll id afterwards. -/
theorem C15_endPoll_never_raises (W : World) (env : Env) (s : State) (t : List Event)
    (id : String) :
    (run W (endPoll env id) s t).result = .ok () ∧
    (run W (endPoll env id) s t).state.polls.get id = none ∧
    (run W (endPoll env id) s t).state.polls.has id = false ∧
    (run W (endPoll env id) s t).state.poll? id = none := by
  have h := endPoll_completes W env s t id
  exact ⟨h.1, h.2, by simp [PollMap.has, h.2], by simp [State.poll?, h.2]⟩

/-- C20: `endPoll` on an id that is not in the registry returns without raising,
leaves the whole state unchanged and has no effect at all: no display update,
no status query, no `executeCommand` call, no notice. -/
theorem C20_endPoll_absent_noop (W : World) (env : Env) (s : State) (t : List Event)
    (id : String) (habsent : s.polls.has id = false) :
    run W (endPoll env id) s t = ⟨.ok (), s, t⟩ ∧
    effects W (endPoll env id) s t = [] := by
  have hget : s.polls.get id = none := by
    simpa [PollMap.has] using habsent
  have h : run W (endPoll env id) s t = ⟨.ok (), s, t⟩ := by
    simp [endPoll, run_bind, hget]
  exact ⟨h, by simp [effects, h]⟩

/-- C11, at a Yes vote that arrives after the poll `poll_x` was resolved. -/
theorem C11_resolved_poll_not_found_witness :
    (run worldOnline (endPoll envBot "poll_x") statePassing []).state.polls.get "poll_x"
      = none ∧
    (run worldOnline (endPoll envBot "poll_x") statePassing []).state.polls.has "poll_x"
      = false ∧
    run worldOnline (onButton envBot votePressYes)
        (run worldOnline (endPoll envBot "poll_x") statePassing []).state []
      = ⟨worldOnline.call [] (.reply "❌ Poll not found or expired." true),
         (run worldOnline (endPoll envBot "poll_x") statePassing []).state,
         [] ++ [.call (.reply "❌ Poll not found or expired." true)
                  (worldOnline.call [] (.reply "❌ Poll not found or expired." true))]⟩ :=
  C11_resolved_poll_not_found worldOnline envBot statePassing [] "poll_x" worldOnline envBot
    votePressYes "tempban_yes" [] (by decide)

/-- C20, at the id `poll_x` in a state with no poll. -/
theorem C20_endPoll_absent_noop_witness :
    run worldOnline (endPoll envBot "poll_x") stateEmpty [] = ⟨.ok (), stateEmpty, []⟩ ∧
    effects worldOnline (endPoll envBot "poll_x") stateEmpty [] = [] :=
  C20_endPoll_absent_noop worldOnline envBot stateEmpty [] "poll_x" (by decide)

/-! ## Display failure during resolution -/

theorem run_trace_prefix {α : Type} (W : World) (x : Task α) :
    ∀ (s : State) (t : List Event), ∃ l, (run W x s t).trace = t ++ l := by
  induction x with
  | pure a => intro s t; exact ⟨[], by simp [run]⟩
  | throw e => intro s t; exact ⟨[], by simp [run]⟩
  | get k ih => intro s t; exact ih s s t
  | set s1 k ih => intro s t; exact ih s1 t
  | console l k ih =>
    intro s t
    obtain ⟨l2, h⟩ := ih s (t ++ [.console l])
    exact ⟨_ :: l2, by rw [run, h, List.append_assoc]; rfl⟩
  | call c k ih =>
    intro s t
    obtain ⟨l2, h⟩ := ih (W.call t c) s (t ++ [.call c (W.call t c)])
    exact ⟨_ :: l2, by rw [run, h, List.append_assoc]; rfl⟩
  | getServerInfo i k ih =>
    intro s t
    obtain ⟨l2, h⟩ := ih (W.getServerInfo t i) s (t ++ [.getServerInfo i (W.getServerInfo t i)])
    exact ⟨_ :: l2, by rw [run, h, List.append_assoc]; rfl⟩
  | executeCommand i c k ih =>
    intro s t
    obtain ⟨l2, h⟩ := ih (W.executeCommand t i c) s
      (t ++ [.executeCommand i c (W.executeCommand t i c)])
    exact ⟨_ :: l2, by rw [run, h, List.append_assoc]; rfl⟩

theorem isEndingErrorLog_console (e : String) :
    Event.isEndingErrorLog (.console ("Error ending poll: " ++ e)) = true := by
  simp only [Event.isEndingErrorLog, String.data_append]
  rw [List.isPrefixOf_iff_prefix]
  exact List.prefix_append _ _

/-- C14 (amended): for every registered poll, a failure of the display surface
during resolution (the channel fetch, the message fetch or the message edit
raising, so that no edit resolves) is logged and does not block the removal of
the poll, but it ends the resolution: no status query, no `executeCommand` call
and no notice follow. -/
theorem C14_display_failure (W : World) (env : Env) (s : State) (t : List Event)
    (id : String) (hreg : s.polls.has id = true)
    (hfail : (effects W (endPoll env id) s t).any Event.isEditOk = false) :
    (effects W (endPoll env id) s t).any Event.isGetServerInfo = false ∧
    (effects W (endPoll env id) s t).any Event.isExecuteCommand = false ∧
    (effects W (endPoll env id) s t).any Event.isAnySend = false ∧
    (effects W (endPoll env id) s t).any Event.isEndingErrorLog = true ∧
    (run W (endPoll env id) s t).state.polls.get id = none := by
  have hdone := (endPoll_completes W env s t id).2
  obtain ⟨ref, hget⟩ : ∃ ref, s.polls.get id = some ref := by
    simpa [PollMap.has, Option.isSome_iff_exists] using hreg
  have hpre : ∀ s1 t1 D, run W (decideOutcome env ref) s1 t1 = D → ∃ l, D.trace = t1 ++ l :=
    fun s1 t1 D h => h ▸ run_trace_prefix W (decideOutcome env ref) s1 t1
  generalize hE : effects W (endPoll env id) s t = E at hfail ⊢
  simp only [effects, endPoll, run_bind, run_tryCatch, run_tryFinally,
    run_getState, hget, run_modifyState, run_readPoll, State.deref_clearTimeout,
    run_await, run_console] at hE
  iterate 3
    try any_goals
      (generalize W.call _ _ = r at hE
       fail_if_success (clear r)
       cases r <;>
       simp only [State.deref_clearTimeout, List.append_assoc,
         drop_length_append, run_await, run_console, run_readPoll,
         run_bind, run_tryCatch] at hE)
  any_goals
    (subst hE
     simp [Event.isGetServerInfo, Event.isExecuteCommand, Event.isAnySend,
       isEndingErrorLog_console, Event.isEndingErrorLog, hdone]
     done)
  all_goals
    (generalize hD : run W (decideOutcome env ref) _ _ = D at hE
     obtain ⟨l, hl⟩ := hpre _ _ _ hD
     rcases D with ⟨r, s2, t2⟩
     simp only at hl
     subst hl
     cases r <;> simp only [List.append_assoc, drop_length_append] at hE <;>
       (subst hE; simp [Event.isEditOk] at hfail))

/-- C14, at a passing poll on an online server while `client.channels.fetch`
rejects. -/
theorem C14_display_failure_witness :
    (effects worldNoChannel (endPoll envBot "poll_x") statePassing []).any
      Event.isGetServerInfo = false ∧
    (effects worldNoChannel (endPoll envBot "poll_x") statePassing []).any
      Event.isExecuteCommand = false ∧
    (effects worldNoChannel (endPoll envBot "poll_x") statePassing []).any
      Event.isAnySend = false ∧
    (effects worldNoChannel (endPoll envBot "poll_x") statePassing []).any
      Event.isEndingErrorLog = true ∧
    (run worldNoChannel (endPoll envBot "poll_x") statePassing []).state.polls.get "poll_x"
      = none :=
  C14_display_failure worldNoChannel envBot statePassing [] "poll_x" (by decide) (by decide)

/-- C14 as stated fails: a poll with two yes votes and one no vote is resolved
on a server that reports online while `client.channels.fetch` rejects; the
outcome command is not executed and the status is not even queried. -/
theorem C14_counterexample :
    statePassing.poll? "poll_x" = some pollPassing ∧
    pollPassing.yes.size > pollPassing.no.size ∧
    worldNoChannel.getServerInfo [] "srv1" = .ok 1 ∧
    effects worldNoChannel (endPoll envBot "poll_x") statePassing []
      = [.call (.fetchChannel "c1") (.error "Unknown Channel"),
         .console "Error ending poll: Unknown Channel"] ∧
    (effects worldNoChannel (endPoll envBot "poll_x") statePassing []).any
      Event.isExecuteCommand = false := by
  decide

/-! ## The outcome command -/

/-- C16, evaluated where it fails: with the default template, the target
`Steve` and the reason `stole $$ from me`, the constructed command is
`tempban Steve 30m stole $ from me`, not `tempban Steve 30m stole $$ from me`;
on the inputs of the example of the claim it is `tempban Steve 30m griefing`. -/
theorem C16_dollar_in_reason :
    commandFormat envBot = "tempban \x7bplayer\x7d 30m \x7breason\x7d" ∧
    banCommand envBot pollDollarReason = "tempban Steve 30m stole $ from me" ∧
    banCommand envBot pollDollarReason
      ≠ "tempban " ++ pollDollarReason.target ++ " 30m " ++ pollDollarReason.reason ∧
    banCommand envBot pollPassing = "tempban Steve 30m griefing" := by
  decide

/-! ## Creation of a poll -/

theorem PollMap.get_set_self (m : PollMap) (id : String) (ref : Nat) :
    (PollMap.set m id ref).get id = some ref := by
  unfold PollMap.set
  by_cases h : PollMap.has m id = true
  · rw [if_pos h]
    unfold PollMap.has PollMap.get at h
    unfold PollMap.get
    induction m with
    | nil => simp at h
    | cons e es ih =>
      by_cases he : e.1 = id
      · simp [List.find?_cons, he]
      · simp only [List.find?_cons, he, decide_False] at h
        simp only [List.map_cons, he, if_false, List.find?_cons, decide_False]
        exact ih h
  · rw [if_neg h]
    have hnone : m.find? (fun e => decide (e.1 = id)) = none := by
      cases hf : m.find? (fun e => decide (e.1 = id)) with
      | none => rfl
      | some e => exact absurd (by simp [PollMap.has, PollMap.get, hf]) h
    simp [PollMap.get, List.find?_append, hnone]

theorem PollMap.get_set_of_not_has (m : PollMap) (id id2 : String) (ref r : Nat)
    (h : PollMap.has m id = false) (hget : PollMap.get m id2 = some r) :
    (PollMap.set m id ref).get id2 = some r := by
  unfold PollMap.set
  rw [if_neg (by simp [h])]
  unfold PollMap.get at hget ⊢
  cases hf : m.find? (fun e => decide (e.1 = id2)) with
  | none => simp [hf] at hget
  | some e =>
    rw [hf] at hget
    simp [List.find?_append, hf]
    simpa using hget

theorem State.poll?_createPoll_self (s : State) (pollId player serverId reason initiator : String)
    (msg : Message) :
    (s.createPoll pollId player serverId reason initiator msg).poll? pollId
      = some (newPoll player serverId reason initiator s.freshHandle msg.id msg.channelId) := by
  simp [State.poll?, State.createPoll, PollMap.get_set_self]

theorem State.poll?_createPoll_of_fresh (s : State)
    (pollId player serverId reason initiator : String) (msg : Message) (id : String) (q : Poll)
    (hfresh : s.polls.has pollId = false) (hq : s.poll? id = some q) :
    (s.createPoll pollId player serverId reason initiator msg).poll? id = some q := by
  unfold State.poll? at hq ⊢
  cases hg : s.polls.get id with
  | none => simp [hg] at hq
  | some r =>
    simp only [hg] at hq
    have h2 := PollMap.get_set_of_not_has s.polls pollId id s.heap.length r hfresh hg
    simp only [State.createPoll, h2]
    have hlt : r < s.heap.length := by
      rcases Nat.lt_or_ge r s.heap.length with h | h
      · exact h
      · rw [List.getElem?_eq_none h] at hq
        cases hq
    rw [List.getElem?_append_left hlt]
    exact hq

/-- The state after `handleTempBanVote`: unchanged unless the reply was fetched,
in which case the poll is created. -/
theorem handleTempBanVote_state (W : World) (env : Env) (i : CommandInteraction) (now : Nat)
    (randomText : String) (msg : Message) (s : State) (t : List Event) :
    ((run W (handleTempBanVote env i now randomText msg) s t).state = s ∨
     (run W (handleTempBanVote env i now randomText msg) s t).state
       = s.createPoll (newPollId now randomText) (jsStr i.player) (jsStr env.DEFAULT_SERVER_ID)
           (orElse i.reason "No reason provided") i.userTag msg) ∧
    (Event.call .fetchReply (.ok ()) ∈ effects W (handleTempBanVote env i now randomText msg) s t →
      (run W (handleTempBanVote env i now randomText msg) s t).state
        = s.createPoll (newPollId now randomText) (jsStr i.player) (jsStr env.DEFAULT_SERVER_ID)
            (orElse i.reason "No reason provided") i.userTag msg) := by
  unfold effects
  generalize hO : run W (handleTempBanVote env i now randomText msg) s t = O
  by_cases hp : truthy i.player = true <;> by_cases hs : truthy env.DEFAULT_SERVER_ID = true <;>
    simp only [handleTempBanVote, run_bind, run_await, run_modifyState, hp, hs, Bool.not_true,
      Bool.not_false, if_true, if_false, Bool.false_eq_true, pollReply] at hO
  iterate 2
    try any_goals
      (generalize W.call _ _ = r at hO
       fail_if_success (clear r)
       cases r <;>
       simp only [run_bind, run_await, run_modifyState] at hO)
  all_goals
    subst hO
    simp

theorem orElse_some_of_ne (r b : String) (h : r ≠ "") : orElse (some r) b = r := by
  simp [orElse, truthy, h, jsStr]

theorem orElse_eq_default (a : Option String) (b : String) (h : orElse a b = b) :
    a = none ∨ a = some "" ∨ a = some b := by
  cases a with
  | none => exact Or.inl rfl
  | some r =>
    by_cases hr : r = ""
    · exact Or.inr (Or.inl (by rw [hr]))
    · rw [orElse_some_of_ne r b hr] at h
      exact Or.inr (Or.inr (by rw [h]))

/-- C18: after a successful poll-creation request (a player name, a configured
server id, the reply sent and fetched) the registry maps the new poll id to a
poll whose yes and no sets are empty, whose target, reason, serverId and
initiator are those of the request, and whose timer is pending with a delay of
300000 ms and is no timer that was pending before. -/
theorem C18_created_poll (W : World) (env : Env) (i : CommandInteraction) (now : Nat)
    (randomText : String) (msg : Message) (s : State) (t : List Event)
    (hok : Event.call .fetchReply (.ok ())
      ∈ effects W (handleTempBanVote env i now randomText msg) s t) :
    ∃ p, (run W (handleTempBanVote env i now randomText msg) s t).state.poll?
          (newPollId now randomText) = some p ∧
      p.yes.size = 0 ∧ p.no.size = 0 ∧
      p.target = jsStr i.player ∧
      p.reason = orElse i.reason "No reason provided" ∧
      p.serverId = jsStr env.DEFAULT_SERVER_ID ∧
      p.initiator = i.userTag ∧
      p.messageId = msg.id ∧ p.channelId = msg.channelId ∧
      (⟨p.timeout, 300000, newPollId now randomText⟩ : Timer)
        ∈ (run W (handleTempBanVote env i now randomText msg) s t).state.timers ∧
      (∀ tm ∈ s.timers, tm.handle ≠ p.timeout) := by
  have hst := (handleTempBanVote_state W env i now randomText msg s t).2 hok
  refine ⟨(newPoll (jsStr i.player) (jsStr env.DEFAULT_SERVER_ID)
    (orElse i.reason "No reason provided") i.userTag s.freshHandle msg.id msg.channelId),
    ?_, rfl, rfl, rfl, rfl, rfl, rfl, rfl, rfl, ?_, ?_⟩
  · rw [hst]
    exact State.poll?_createPoll_self _ _ _ _ _ _ _
  · rw [hst]
    simp [State.createPoll, newPoll]
  · intro tm htm
    have hle : tm.handle ≤
        (s.timers.map (fun t => t.handle) ++ s.heap.map (fun p => p.timeout)).foldr max 0 := by
      have hmem : tm.handle ∈ s.timers.map (fun t => t.handle) ++ s.heap.map (fun p => p.timeout) :=
        List.mem_append_left _ (List.mem_map_of_mem _ htm)
      generalize s.timers.map (fun t => t.handle) ++ s.heap.map (fun p => p.timeout) = l at hmem
      induction l with
      | nil => cases hmem
      | cons a l ih =>
        rcases List.mem_cons.mp hmem with h | h
        · rw [h]; exact Nat.le_max_left _ _
        · exact Nat.le_trans (ih h) (Nat.le_max_right _ _)
    simp only [newPoll, State.freshHandle]
    omega

/-- C18, at a request on `Steve` with the reason `griefing` in an empty
registry. -/
theorem C18_created_poll_witness :
    ∃ p, (run worldOnline (handleTempBanVote envBot requestWithReason 0 "0.abcdefgh"
            replyMessage) stateEmpty []).state.poll? (newPollId 0 "0.abcdefgh") = some p ∧
      p.yes.size = 0 ∧ p.no.size = 0 ∧
      p.target = jsStr requestWithReason.player ∧
      p.reason = orElse requestWithReason.reason "No reason provided" ∧
      p.serverId = jsStr envBot.DEFAULT_SERVER_ID ∧
      p.initiator = requestWithReason.userTag ∧
      p.messageId = replyMessage.id ∧ p.channelId = replyMessage.channelId ∧
      (⟨p.timeout, 300000, newPollId 0 "0.abcdefgh"⟩ : Timer)
        ∈ (run worldOnline (handleTempBanVote envBot requestWithReason 0 "0.abcdefgh"
            replyMessage) stateEmpty []).state.timers ∧
      (∀ tm ∈ stateEmpty.timers, tm.handle ≠ p.timeout) :=
  C18_created_poll worldOnline envBot requestWithReason 0 "0.abcdefgh" replyMessage
    stateEmpty [] (by decide)

/-- C19 (amended): poll creation registers the poll under the generated id
without looking the id up in the registry; when the generated id is not in the
registry, every poll present before the creation is still present with the
same poll object (tallies, timer handle) afterwards and every pending timer is
still pending. -/
theorem C19_creation_keeps_other_polls (W : World) (env : Env) (i : CommandInteraction)
    (now : Nat) (randomText : String) (msg : Message) (s : State) (t : List Event)
    (hfresh : s.polls.has (newPollId now randomText) = false) :
    (∀ id q, s.poll? id = some q →
      (run W (handleTempBanVote env i now randomText msg) s t).state.poll? id = some q) ∧
    (∀ tm ∈ s.timers,
      tm ∈ (run W (handleTempBanVote env i now randomText msg) s t).state.timers) := by
  rcases (handleTempBanVote_state W env i now randomText msg s t).1 with h | h
  · rw [h]
    exact ⟨fun _ _ hq => hq, fun _ htm => htm⟩
  · rw [h]
    refine ⟨fun id q hq => State.poll?_createPoll_of_fresh s _ _ _ _ _ msg id q hfresh hq, ?_⟩
    intro tm htm
    simp [State.createPoll, htm]

/-- C19, at a creation under the id `poll_1_abcdef` while `poll_x` is
registered. -/
theorem C19_creation_keeps_other_polls_witness :
    (∀ id q, statePassing.poll? id = some q →
      (run worldOnline (handleTempBanVote envBot requestWithReason 1 "0.abcdefgh"
        replyMessage) statePassing []).state.poll? id = some q) ∧
    (∀ tm ∈ statePassing.timers,
      tm ∈ (run worldOnline (handleTempBanVote envBot requestWithReason 1 "0.abcdefgh"
        replyMessage) statePassing []).state.timers) :=
  C19_creation_keeps_other_polls worldOnline envBot requestWithReason 1 "0.abcdefgh"
    replyMessage statePassing [] (by decide)

/-- C19 as stated fails: the registry holds a poll with two yes votes and one
no vote under `poll_0_abcdef`, the generator produces that same id (time 0,
random text `0.abcdefgh`), nothing is regenerated and the entry is overwritten:
afterwards the id leads to the new poll with empty tallies. -/
theorem C19_counterexample :
    stateCollision.poll? "poll_0_abcdef" = some pollPassing ∧
    pollPassing.yes.size = 2 ∧
    newPollId 0 "0.abcdefgh" = "poll_0_abcdef" ∧
    (run worldOnline (handleTempBanVote envBot requestWithReason 0 "0.abcdefgh" replyMessage)
        stateCollision []).state.poll? "poll_0_abcdef"
      = some (newPoll "Steve" "srv1" "griefing" "ann" 8 "m9" "c1") ∧
    (run worldOnline (handleTempBanVote envBot requestWithReason 0 "0.abcdefgh" replyMessage)
        stateCollision []).state.poll? "poll_0_abcdef" ≠ some pollPassing := by
  decide

/-! ## Interleaved execution -/

theorem run_advance {α : Type} (W : World) (x : Task α) :
    ∀ (s : State) (t : List Event),
      run W (advance x s t).1 (advance x s t).2.1 (advance x s t).2.2 = run W x s t := by
  induction x with
  | pure a => intro s t; rfl
  | throw e => intro s t; rfl
  | get k ih => intro s t; exact ih s s t
  | set s1 k ih => intro s t; exact ih s1 t
  | console l k ih => intro s t; exact ih s _
  | call c k _ => intro s t; rfl
  | getServerInfo i k _ => intro s t; rfl
  | executeCommand i c k _ => intro s t; rfl

/-- A turn of a task does not change what its run to completion gives: the
interleaved execution of a single handler is its sequential run. -/
theorem run_resume {α : Type} (W : World) (x : Task α) (s : State) (t : List Event) :
    run W (resume W x s t).1 (resume W x s t).2.1 (resume W x s t).2.2 = run W x s t := by
  cases x with
  | pure a => rfl
  | throw e => rfl
  | get k => exact run_advance W (.get k) s t
  | set s1 k => exact run_advance W (.set s1 k) s t
  | console l k => exact run_advance W (.console l k) s t
  | call c k => exact run_advance W (k (W.call t c)) s _
  | getServerInfo i k => exact run_advance W (k (W.getServerInfo t i)) s _
  | executeCommand i c k => exact run_advance W (k (W.executeCommand t i c)) s _

/-- On a registered poll `endPoll` runs up to `client.channels.fetch` having
only read the registry and cleared the timer: at its first `await` the entry
of the poll is still in the registry. -/
theorem endPoll_first_await (env : Env) (s : State) (t : List Event) (id : String) (p : Poll)
    (hp : s.poll? id = some p) :
    (∃ k, advance (endPoll env id) s t
        = (.call (.fetchChannel p.channelId) k, s.clearTimeout p.timeout, t)) ∧
    (s.clearTimeout p.timeout).polls.has id = true := by
  obtain ⟨ref, hget, hderef⟩ := State.poll?_eq_some hp
  subst hderef
  constructor
  · have h : advance (endPoll env id) s t
        = advance (match s.polls.get id with
            | none => (pure () : Task Unit)
            | some ref => do
              modifyState (fun s => s.clearTimeout (s.deref ref).timeout)
              try
                let poll ← readPoll ref
                await (.fetchChannel poll.channelId)
                let poll ← readPoll ref
                await (.fetchMessage poll.channelId poll.messageId)
                let poll ← readPoll ref
                await (.edit poll.messageId ("Poll ended | Initiated by " ++ poll.initiator)
                  (countFields poll) (disabledRow id poll))
                decideOutcome env ref
              catch err =>
                console ("Error ending poll: " ++ err)
              finally
                modifyState (fun s => s.deletePoll id)) s t := rfl
    rw [h, hget]
    exact ⟨_, rfl⟩
  · simp [State.clearTimeout, PollMap.has, hget]

/-- C12, evaluated where it fails: the deadline timer fires and a privileged
End Poll press arrives while the first `endPoll` waits for the channel fetch;
both handlers run to their end, `executeCommand` is invoked twice and the
confirmation notice is posted twice. When the first resolution ends before the
press is dispatched, the command is executed once. -/
theorem C12_race_executes_twice :
    statePassing.poll? "poll_x" = some pollPassing ∧
    hasRequiredRole envBot endPressPrivileged = true ∧
    (interleave worldOnline raceSchedule racePool statePassing []).1.all Thread.ended = true ∧
    (interleave worldOnline raceSchedule racePool statePassing []).2.2.countP
      Event.isExecuteCommand = 2 ∧
    (interleave worldOnline raceSchedule racePool statePassing []).2.2.countP
      (Event.isSend "c1" (executedNotice pollPassing "tempban Steve 30m griefing")) = 2 ∧
    (interleave worldOnline sequentialSchedule racePool statePassing []).1.all Thread.ended
      = true ∧
    (interleave worldOnline sequentialSchedule racePool statePassing []).2.2.countP
      Event.isExecuteCommand = 1 := by
  decide

/-- C13, evaluated where it fails: the resolution of the registered poll
`poll_x`, turn by turn. At each of its six awaits (channel fetch, message
fetch, display edit, status query, command execution, notice send) the registry
still holds the entry of `poll_x`; the entry is gone only when `endPoll` has
ended. -/
theorem C13_registered_at_every_await :
    statePassing.poll? "poll_x" = some pollPassing ∧
    (List.range 8).map resolutionAfter
      = [ ([""], true),
          (["channels.fetch"], true),
          (["messages.fetch"], true),
          (["message.edit"], true),
          (["getServerInfo"], true),
          (["executeCommand"], true),
          (["channel.send"], true),
          ([""], false) ] := by
  decide

/-! ## The privilege predicate -/

/-- C21: `hasRequiredRole` is true for every interaction when no required role
is configured (`DISCORD_REQUIRED_ROLE` unset or empty); when a role is
configured it is true if and only if the interaction has a member and some role
of that member has exactly the configured name. -/
theorem C21_hasRequiredRole (env : Env) (i : Interaction) :
    (env.DISCORD_REQUIRED_ROLE = none → hasRequiredRole env i = true) ∧
    (env.DISCORD_REQUIRED_ROLE = some "" → hasRequiredRole env i = true) ∧
    (∀ role, env.DISCORD_REQUIRED_ROLE = some role → role ≠ "" →
      (hasRequiredRole env i = true ↔ ∃ roles, i.member = some roles ∧ role ∈ roles)) := by
  refine ⟨?_, ?_, ?_⟩
  · intro h
    simp [hasRequiredRole, h, truthy]
  · intro h
    simp [hasRequiredRole, h, truthy]
  · intro role h hne
    cases hm : i.member with
    | none => simp [hasRequiredRole, h, truthy, hne, hm]
    | some roles =>
      simp [hasRequiredRole, h, truthy, hne, hm, jsStr]

/-! ## Frame of a vote -/

theorem JSSet.size_delete_of_mem (s : JSSet) (v : String) (h : v ∈ s) :
    (s.delete v).size + 1 = s.size := by
  have h2 : v ∈ s.items := h
  have hpos : 0 < s.items.length := List.length_pos_of_mem h2
  simp only [JSSet.size, JSSet.delete, List.length_erase_of_mem h2]
  omega

/-- The vote branch of the button handler: whatever `interaction.update`
answers, the state it leaves is the one where the poll object has taken the
vote. -/
theorem onButton_vote_state (W : World) (env : Env) (i : Interaction) (s : State)
    (t : List Event) (action id : String) (ref : Nat)
    (hparse : parseCustomId i.customId = (action, some id))
    (hid : id ≠ "") (hget : s.polls.get id = some ref) (hact : action ≠ "tempban_end") :
    (run W (onButton env i) s t).state
      = s.mutate ref (fun poll => castVote poll i.userId action) := by
  simp [onButton, hparse, run_bind, truthy, hid, jsStr, PollMap.has, hget, hact]

theorem State.heap_mutate_of_ne (s : State) (ref ref2 : Nat) (f : Poll → Poll) (h : ref2 ≠ ref) :
    (s.mutate ref f).heap[ref2]? = s.heap[ref2]? := by
  simp [State.mutate, List.getElem?_modify, Ne.symm h]

theorem State.heap_mutate_self (s : State) (ref : Nat) (f : Poll → Poll) (p : Poll)
    (h : s.heap[ref]? = some p) :
    (s.mutate ref f).heap[ref]? = some (f p) := by
  simp [State.mutate, List.getElem?_modify, h]

/-- C26: a cast-vote on the poll registered under `id` leaves the registry map
and the pending timers as they are; the poll object keeps its target, reason,
serverId, initiator, timer handle and display location (message and channel),
only its yes and no sets being those of `castVote`; every other poll object,
and so every poll registered under another object, is unchanged. -/
theorem C26_vote_frame (W : World) (env : Env) (i : Interaction) (s : State)
    (t : List Event) (c : Choice) (id : String) (ref : Nat) (p : Poll)
    (hparse : parseCustomId i.customId = (c.action, some id))
    (hid : id ≠ "") (hget : s.polls.get id = some ref) (hp : s.heap[ref]? = some p) :
    (run W (onButton env i) s t).state.polls = s.polls ∧
    (run W (onButton env i) s t).state.timers = s.timers ∧
    (run W (onButton env i) s t).state.poll? id = some (castVote p i.userId c.action) ∧
    castVote p i.userId c.action
      = { p with yes := (castVote p i.userId c.action).yes,
                 no := (castVote p i.userId c.action).no } ∧
    (∀ ref2, ref2 ≠ ref → (run W (onButton env i) s t).state.heap[ref2]? = s.heap[ref2]?) ∧
    (∀ id2 q, s.polls.get id2 ≠ some ref → s.poll? id2 = some q →
      (run W (onButton env i) s t).state.poll? id2 = some q) := by
  have hact : c.action ≠ "tempban_end" := by cases c <;> decide
  rw [onButton_vote_state W env i s t c.action id ref hparse hid hget hact]
  refine ⟨rfl, rfl, ?_, ?_, ?_, ?_⟩
  · have h1 : (s.mutate ref (fun poll => castVote poll i.userId c.action)).polls.get id
        = some ref := hget
    simp only [State.poll?, h1]
    exact State.heap_mutate_self s ref _ p hp
  · rw [castVote_eq]
  · intro ref2 h
    exact State.heap_mutate_of_ne s ref ref2 _ h
  · intro id2 q hne hq
    unfold State.poll? at hq ⊢
    have h1 : (s.mutate ref (fun poll => castVote poll i.userId c.action)).polls.get id2
        = s.polls.get id2 := rfl
    rw [h1]
    cases hg : s.polls.get id2 with
    | none => simp [hg] at hq
    | some r =>
      simp only [hg] at hq ⊢
      have hr : r ≠ ref := fun h => hne (by rw [hg, h])
      rw [State.heap_mutate_of_ne s ref r _ hr]
      exact hq

/-- C26, at a Yes vote of a new voter on `poll_x`. -/
theorem C26_vote_frame_witness :
    (run worldOnline (onButton envBot votePressYesNew) statePassing []).state.polls
      = statePassing.polls ∧
    (run worldOnline (onButton envBot votePressYesNew) statePassing []).state.timers
      = statePassing.timers ∧
    (run worldOnline (onButton envBot votePressYesNew) statePassing []).state.poll? "poll_x"
      = some (castVote pollPassing votePressYesNew.userId Choice.Yes.action) ∧
    castVote pollPassing votePressYesNew.userId Choice.Yes.action
      = { pollPassing with
            yes := (castVote pollPassing votePressYesNew.userId Choice.Yes.action).yes,
            no := (castVote pollPassing votePressYesNew.userId Choice.Yes.action).no } ∧
    (∀ ref2, ref2 ≠ 0 →
      (run worldOnline (onButton envBot votePressYesNew) statePassing []).state.heap[ref2]?
        = statePassing.heap[ref2]?) ∧
    (∀ id2 q, statePassing.polls.get id2 ≠ some 0 → statePassing.poll? id2 = some q →
      (run worldOnline (onButton envBot votePressYesNew) statePassing []).state.poll? id2
        = some q) :=
  C26_vote_frame worldOnline envBot votePressYesNew statePassing [] Choice.Yes "poll_x" 0
    pollPassing (by decide) (by decide) (by decide) (by decide)

/-! ## Unknown button actions -/

/-- C29: a button interaction addressed to an existing poll whose action is
none of `tempban_yes`, `tempban_no` and `tempban_end` deletes the user from the
yes set and from the no set and adds the user to neither; the user is in
neither set afterwards, and the total count drops by one if the user had voted
(and stays as it is otherwise). -/
theorem C29_unknown_action_withdraws (W : World) (env : Env) (i : Interaction) (s : State)
    (t : List Event) (action id : String) (ref : Nat) (p : Poll)
    (hparse : parseCustomId i.customId = (action, some id))
    (hid : id ≠ "") (hget : s.polls.get id = some ref) (hp : s.heap[ref]? = some p)
    (hyes : action ≠ "tempban_yes") (hno : action ≠ "tempban_no")
    (hend : action ≠ "tempban_end")
    (hdisj : ¬ (i.userId ∈ p.yes ∧ i.userId ∈ p.no)) :
    ∃ q, (run W (onButton env i) s t).state.poll? id = some q ∧
      q.yes = p.yes.delete i.userId ∧ q.no = p.no.delete i.userId ∧
      ¬ i.userId ∈ q.yes ∧ ¬ i.userId ∈ q.no ∧
      (i.userId ∈ p.yes ∨ i.userId ∈ p.no → q.yes.size + q.no.size + 1 = p.yes.size + p.no.size) ∧
      (¬ (i.userId ∈ p.yes ∨ i.userId ∈ p.no) →
        q.yes.size + q.no.size = p.yes.size + p.no.size) := by
  refine ⟨castVote p i.userId action, ?_, ?_, ?_, ?_, ?_, ?_, ?_⟩
  · rw [onButton_vote_state W env i s t action id ref hparse hid hget hend]
    have h1 : (s.mutate ref (fun poll => castVote poll i.userId action)).polls.get id
        = some ref := hget
    simp only [State.poll?, h1]
    exact State.heap_mutate_self s ref _ p hp
  · rw [castVote_yes, if_neg hyes]
  · rw [castVote_no, if_neg hno]
  · rw [castVote_yes, if_neg hyes]
    exact JSSet.not_mem_delete _ _
  · rw [castVote_no, if_neg hno]
    exact JSSet.not_mem_delete _ _
  · intro h
    rw [castVote_yes, if_neg hyes, castVote_no, if_neg hno]
    rcases h with h | h
    · have hn : ¬ i.userId ∈ p.no := fun hn => hdisj ⟨h, hn⟩
      rw [JSSet.delete_of_not_mem _ _ hn]
      have := JSSet.size_delete_of_mem _ _ h
      omega
    · have hy : ¬ i.userId ∈ p.yes := fun hy => hdisj ⟨hy, h⟩
      rw [JSSet.delete_of_not_mem _ _ hy]
      have := JSSet.size_delete_of_mem _ _ h
      omega
  · intro h
    rw [castVote_yes, if_neg hyes, castVote_no, if_neg hno]
    rw [JSSet.delete_of_not_mem _ _ (fun hy => h (Or.inl hy)),
      JSSet.delete_of_not_mem _ _ (fun hn => h (Or.inr hn))]

/-- C29, at the action `tempban_maybe` pressed on `poll_x` by the user `a`, who
had voted yes. -/
theorem C29_unknown_action_withdraws_witness :
    ∃ q, (run worldOnline (onButton envBot unknownPress) statePassing []).state.poll? "poll_x"
        = some q ∧
      q.yes = pollPassing.yes.delete unknownPress.userId ∧
      q.no = pollPassing.no.delete unknownPress.userId ∧
      ¬ unknownPress.userId ∈ q.yes ∧ ¬ unknownPress.userId ∈ q.no ∧
      (unknownPress.userId ∈ pollPassing.yes ∨ unknownPress.userId ∈ pollPassing.no →
        q.yes.size + q.no.size + 1 = pollPassing.yes.size + pollPassing.no.size) ∧
      (¬ (unknownPress.userId ∈ pollPassing.yes ∨ unknownPress.userId ∈ pollPassing.no) →
        q.yes.size + q.no.size = pollPassing.yes.size + pollPassing.no.size) :=
  C29_unknown_action_withdraws worldOnline envBot unknownPress statePassing [] "tempban_maybe"
    "poll_x" 0 pollPassing (by decide) (by decide) (by decide) (by decide) (by decide)
    (by decide) (by decide) (by decide)

/-! ## A notice that cannot be posted -/

theorem executedNotice_head (p : Poll) (c : String) :
    (executedNotice p c).data.head? = some '✅' := by
  simp only [executedNotice, String.data_append, List.append_assoc]
  rfl

theorem commandErrorNotice_head (p : Poll) (c m : String) :
    (commandErrorNotice p c m).data.head? = some '❌' := by
  simp only [commandErrorNotice, String.data_append, List.append_assoc]
  rfl

theorem tempbanErrorNotice_head (p : Poll) (m : String) :
    (tempbanErrorNotice p m).data.head? = some '❌' := by
  simp only [tempbanErrorNotice, String.data_append, List.append_assoc]
  rfl

theorem offlineNotice_head (p : Poll) : (offlineNotice p).data.head? = some '⚠' := by
  simp only [offlineNotice, String.data_append, List.append_assoc]
  rfl

theorem executedNotice_ne_commandErrorNotice (p q : Poll) (c d m : String) :
    executedNotice p c ≠ commandErrorNotice q d m := by
  intro h
  have h2 := congrArg (fun x => x.data.head?) h
  simp only [executedNotice_head, commandErrorNotice_head] at h2
  exact absurd h2 (by decide)

theorem executedNotice_ne_tempbanErrorNotice (p q : Poll) (c m : String) :
    executedNotice p c ≠ tempbanErrorNotice q m := by
  intro h
  have h2 := congrArg (fun x => x.data.head?) h
  simp only [executedNotice_head, tempbanErrorNotice_head] at h2
  exact absurd h2 (by decide)

theorem executedNotice_ne_offlineNotice (p q : Poll) (c : String) :
    executedNotice p c ≠ offlineNotice q := by
  intro h
  have h2 := congrArg (fun x => x.data.head?) h
  simp only [executedNotice_head, offlineNotice_head] at h2
  exact absurd h2 (by decide)

/-- The run of `endPoll` on a registered poll with more yes than no votes when
the confirmation notice cannot be posted, by cases on what every collaborator
answers. -/
theorem endPoll_notice_failure (W : World) (env : Env) (s : State) (t : List Event)
    (id : String) (p : Poll) (hp : s.poll? id = some p) (hgt : p.yes.size > p.no.size) :
    ∀ m, Event.call (.send p.channelId (executedNotice p (banCommand env p))) (.error m)
        ∈ (run W (endPoll env id) s t).trace.drop t.length →
      ((run W (endPoll env id) s t).trace.drop t.length).any
        (Event.isSend p.channelId (commandErrorNotice p (banCommand env p) m)) = true ∧
      ((run W (endPoll env id) s t).trace.drop t.length).countP Event.isExecuteCommand = 1 := by
  obtain ⟨ref, hget, hderef⟩ := State.poll?_eq_some hp
  generalize hO : run W (endPoll env id) s t = O
  simp only [endPoll, decideOutcome, executeIfOnline, executeBan, run_bind,
    run_tryCatch, run_tryFinally, run_getState, hget, run_modifyState, run_readPoll,
    State.deref_clearTimeout, hderef, run_await, hgt, if_true, run_console,
    run_getServerInfo, run_executeCommand] at hO
  iterate 3
    try any_goals
      (generalize W.call _ _ = r at hO
       fail_if_success (clear r)
       cases r <;>
       simp only [State.deref_clearTimeout, hderef, hgt, if_true, List.append_assoc,
         drop_length_append, run_await, run_getServerInfo, run_console, run_readPoll,
         run_bind, run_tryCatch, run_executeCommand] at hO)
  try any_goals
    (generalize W.getServerInfo _ _ = r at hO
     fail_if_success (clear r)
     rcases r with e | m <;>
     [simp only [State.deref_clearTimeout, hderef, hgt, if_true, List.append_assoc,
         drop_length_append, run_await, run_getServerInfo, run_console, run_readPoll,
         run_bind, run_tryCatch, run_executeCommand] at hO;
      (by_cases hm : m = 1 <;>
       simp only [State.deref_clearTimeout, hderef, hgt, if_true, List.append_assoc,
         drop_length_append, run_await, run_getServerInfo, run_console, run_readPoll,
         run_bind, run_tryCatch, run_executeCommand, hm, ne_eq, not_true_eq_false,
         not_false_eq_true, if_false] at hO)])
  try any_goals
    (generalize W.executeCommand _ _ _ = r at hO
     fail_if_success (clear r)
     rcases r with e | ⟨_ | _, err⟩ <;>
     simp only [State.deref_clearTimeout, hderef, hgt, if_true, List.append_assoc,
         drop_length_append, run_await, run_getServerInfo, run_console, run_readPoll,
         run_bind, run_tryCatch, run_executeCommand, Bool.false_eq_true, if_false] at hO)
  iterate 3
    try any_goals
      (generalize W.call _ _ = r at hO
       fail_if_success (clear r)
       cases r <;>
       simp only [State.deref_clearTimeout, hderef, hgt, if_true, List.append_assoc,
         drop_length_append, run_await, run_getServerInfo, run_console, run_readPoll,
         run_bind, run_tryCatch, run_executeCommand] at hO)
  all_goals
    subst hO
    simp [Event.isGetServerInfo, Event.isExecuteCommand, Event.isEditOk, Event.isSend,
      Event.isExecuteOf, List.countP_cons, List.countP_nil,
      executedNotice_ne_commandErrorNotice, executedNotice_ne_tempbanErrorNotice,
      executedNotice_ne_offlineNotice]

/-- C30: for every registered poll with `|yes| > |no|`, if the confirmation
notice (sent only after `executeCommand` returned success) raises with message
`m`, `endPoll` then calls `channel.send` with the `command ... failed` notice
for that command and `m`, and `executeCommand` is invoked exactly once. -/
theorem C30_confirmation_notice_raises (W : World) (env : Env) (s : State) (t : List Event)
    (id : String) (p : Poll) (m : String) (hp : s.poll? id = some p)
    (hgt : p.yes.size > p.no.size)
    (hsend : Event.call (.send p.channelId (executedNotice p (banCommand env p))) (.error m)
      ∈ effects W (endPoll env id) s t) :
    (effects W (endPoll env id) s t).any
      (Event.isSend p.channelId (commandErrorNotice p (banCommand env p) m)) = true ∧
    (effects W (endPoll env id) s t).countP Event.isExecuteCommand = 1 :=
  endPoll_notice_failure W env s t id p hp hgt m hsend

/-- C30, at a passing poll on an online server where the command succeeds and
the confirmation notice raises `Missing Access`. -/
theorem C30_confirmation_notice_raises_witness :
    (effects worldNoticeRaises (endPoll envBot "poll_x") statePassing []).any
      (Event.isSend pollPassing.channelId
        (commandErrorNotice pollPassing (banCommand envBot pollPassing) "Missing Access"))
      = true ∧
    (effects worldNoticeRaises (endPoll envBot "poll_x") statePassing []).countP
      Event.isExecuteCommand = 1 :=
  C30_confirmation_notice_raises worldNoticeRaises envBot statePassing [] "poll_x" pollPassing
    "Missing Access" (by decide) (by decide) (by decide)

/-! ## Button correlation -/

theorem splitChars_of_not_mem (sep : Char) (l : List Char) (h : sep ∉ l) :
    splitChars sep l = [l] := by
  induction l with
  | nil => rfl
  | cons c cs ih =>
    have hc : c ≠ sep := fun e => h (by rw [e]; exact List.mem_cons_self _ _)
    have hcs : sep ∉ cs := fun e => h (List.mem_cons_of_mem _ e)
    simp [splitChars, hc, ih hcs]

theorem splitChars_append_sep (sep : Char) (a b : List Char) (h : sep ∉ a) :
    splitChars sep (a ++ sep :: b) = a :: splitChars sep b := by
  induction a with
  | nil => simp [splitChars]
  | cons c cs ih =>
    have hc : c ≠ sep := fun e => h (by rw [e]; exact List.mem_cons_self _ _)
    have hcs : sep ∉ cs := fun e => h (List.mem_cons_of_mem _ e)
    simp [splitChars, hc, ih hcs]

theorem parseCustomId_of_parts (action pollId : List Char) (ha : ':' ∉ action)
    (hp : ':' ∉ pollId) :
    parseCustomId (String.mk (action ++ ':' :: pollId))
      = (String.mk action, some (String.mk pollId)) := by
  simp [parseCustomId, split, splitChars_append_sep ':' action pollId ha,
    splitChars_of_not_mem ':' pollId hp]

theorem base36Digit_ne_colon : ∀ d, d < 36 → base36Digit d ≠ ':' := by
  decide

theorem toBase36Digits_no_colon (fuel : Nat) :
    ∀ (n : Nat) (acc : List Char), ':' ∉ acc → ':' ∉ toBase36Digits fuel n acc := by
  induction fuel with
  | zero => intro n acc h; exact h
  | succ fuel ih =>
    intro n acc h
    unfold toBase36Digits
    by_cases hn : n < 36
    · rw [if_pos hn]
      intro hm
      rcases List.mem_cons.mp hm with e | e
      · exact base36Digit_ne_colon n hn e.symm
      · exact h e
    · rw [if_neg hn]
      apply ih
      intro hm
      rcases List.mem_cons.mp hm with e | e
      · exact base36Digit_ne_colon (n % 36) (Nat.mod_lt _ (by decide)) e.symm
      · exact h e

theorem newPollId_no_colon (now : Nat) (randomText : String) (h : ':' ∉ randomText.data) :
    ':' ∉ (newPollId now randomText).data := by
  have h1 : ':' ∉ (toBase36 now).data := toBase36Digits_no_colon _ _ _ (by simp)
  have h2 : ':' ∉ (slice randomText 2 8).data := by
    intro hm
    exact h (List.mem_of_mem_drop (List.mem_of_mem_take hm))
  have h3 : ':' ∉ "poll_".data := by decide
  have h4 : ':' ∉ "_".data := by decide
  simp only [newPollId, String.data_append, List.mem_append, not_or]
  exact ⟨⟨⟨h3, h1⟩, h4⟩, h2⟩

/-- C28: for every poll id the generator produces from a time and a random text
without `:` (the text of `Math.random().toString(36)` has only digits, lower
case letters and a dot), the id has no `:`, and the custom ids of the three
buttons of the poll, split on `:`, give back the actions `tempban_yes`,
`tempban_no`, `tempban_end` and that poll id. -/
theorem C28_customId_roundtrip (now : Nat) (randomText : String)
    (hrandom : ':' ∉ randomText.data) :
    ':' ∉ (newPollId now randomText).data ∧
    (voteRow (newPollId now randomText)).map (fun b => parseCustomId b.customId)
      = [ ("tempban_yes", some (newPollId now randomText)),
          ("tempban_no", some (newPollId now randomText)),
          ("tempban_end", some (newPollId now randomText)) ] := by
  have h := newPollId_no_colon now randomText hrandom
  refine ⟨h, ?_⟩
  have hy := parseCustomId_of_parts "tempban_yes".data (newPollId now randomText).data
    (by decide) h
  have hn := parseCustomId_of_parts "tempban_no".data (newPollId now randomText).data
    (by decide) h
  have he := parseCustomId_of_parts "tempban_end".data (newPollId now randomText).data
    (by decide) h
  have ey : "tempban_yes:" ++ newPollId now randomText
      = String.mk ("tempban_yes".data ++ ':' :: (newPollId now randomText).data) := by
    apply String.ext; simp [String.data_append]
  have en : "tempban_no:" ++ newPollId now randomText
      = String.mk ("tempban_no".data ++ ':' :: (newPollId now randomText).data) := by
    apply String.ext; simp [String.data_append]
  have ee : "tempban_end:" ++ newPollId now randomText
      = String.mk ("tempban_end".data ++ ':' :: (newPollId now randomText).data) := by
    apply String.ext; simp [String.data_append]
  simp only [voteRow, List.map_cons, List.map_nil, ey, en, ee, hy, hn, he]

theorem C28_customId_roundtrip_witness :
    ':' ∉ "0.abcdefgh".data ∧
    (voteRow (newPollId 0 "0.abcdefgh")).map (fun b => parseCustomId b.customId)
      = [ ("tempban_yes", some "poll_0_abcdef"),
          ("tempban_no", some "poll_0_abcdef"),
          ("tempban_end", some "poll_0_abcdef") ] :=
  ⟨by decide, (C28_customId_roundtrip 0 "0.abcdefgh" (by decide)).2⟩

/-! ## Tokens of the command template -/

/-- C25, evaluated where it fails: with a template that names the player twice
only the first `{player}` token is replaced; with the default template, a
target that holds the text `{reason}` is itself rewritten with the reason while
the `{reason}` token of the template stays; and the target `$&` is read as a
replacement pattern and puts the token `{player}` back. On the target `Steve`
and the reason `griefing` the default template gives
`tempban Steve 30m griefing`. -/
theorem C25_tokens_and_patterns :
    banCommand envTwoTokens pollPassing
      = "kick Steve; tempban \x7bplayer\x7d 30m griefing" ∧
    banCommand envTwoTokens pollPassing ≠ "kick Steve; tempban Steve 30m griefing" ∧
    banCommand envBot pollTokenTarget = "tempban xgriefing 30m \x7breason\x7d" ∧
    banCommand envBot pollTokenTarget ≠ "tempban x\x7breason\x7d 30m griefing" ∧
    banCommand envBot pollPatternTarget = "tempban \x7bplayer\x7d 30m griefing" ∧
    banCommand envBot pollPatternTarget ≠ "tempban $& 30m griefing" ∧
    banCommand envBot pollPassing = "tempban Steve 30m griefing" := by
  decide

/-! ## A vote during the resolution -/

/-- C27, evaluated where it fails: `poll_x` stands at one yes and one no vote
when its deadline fires. While `endPoll` is suspended at `message.edit`, whose
embed and buttons already show Yes 1 and No 1, the user `d` presses Yes: the
handler finds the poll in the registry, adds the vote and shows Yes 2, No 1.
The resolution then reads 2 > 1 and executes the command. When the press is
dispatched after the resolution has ended, it is answered
`Poll not found or expired` and the poll fails. -/
theorem C27_vote_during_resolution :
    stateTied.poll? "poll_x" = some pollTied ∧
    pollTied.yes.size = 1 ∧ pollTied.no.size = 1 ∧
    (interleave worldOnline [0, 0, 0] votePool stateTied []).1.map Thread.awaited
      = ["message.edit", ""] ∧
    (interleave worldOnline voteDuringEditSchedule votePool stateTied []).1.all Thread.ended
      = true ∧
    (interleave worldOnline voteDuringEditSchedule votePool stateTied []).2.2
      = [ .call (.fetchChannel "c1") (.ok ()),
          .call (.fetchMessage "c1" "m1") (.ok ()),
          .call (.edit "m1" "Poll ended | Initiated by ann"
            [("Yes", "1"), ("No", "1"), ("Target", "Steve")] (disabledRow "poll_x" pollTied))
            (.ok ()),
          .getServerInfo "srv1" (.ok 1),
          .console "Executing tempban command: tempban Steve 30m griefing",
          .executeCommand "srv1" "tempban Steve 30m griefing"
            (.ok { success := true, error := none }),
          .console "Tempban command result:",
          .call (.send "c1" (executedNotice pollTied "tempban Steve 30m griefing")) (.ok ()),
          .call (.update "Poll: poll_x | Initiated by ann"
            [("Yes", "2"), ("No", "1"), ("Target", "Steve")]) (.ok ()) ] ∧
    (interleave worldOnline voteAfterSchedule votePool stateTied []).1.all Thread.ended
      = true ∧
    (interleave worldOnline voteAfterSchedule votePool stateTied []).2.2
      = [ .call (.fetchChannel "c1") (.ok ()),
          .call (.fetchMessage "c1" "m1") (.ok ()),
          .call (.edit "m1" "Poll ended | Initiated by ann"
            [("Yes", "1"), ("No", "1"), ("Target", "Steve")] (disabledRow "poll_x" pollTied))
            (.ok ()),
          .call (.send "c1" (pollFailedNotice pollTied)) (.ok ()),
          .call (.reply "❌ Poll not found or expired." true) (.ok ()) ] := by
  decide

/-! ## The gate of the slash commands -/

theorem hasRoleByName_iff (i : ChatInputInteraction) (roleName : String) (hne : roleName ≠ "") :
    hasRoleByName i roleName = true ↔ ∃ roles, i.member = some roles ∧ roleName ∈ roles := by
  unfold hasRoleByName
  cases hm : i.member with
  | none => simp [truthy, hne]
  | some roles => simp [truthy, hne]

theorem orElse_ne_empty (a : Option String) (b : String) (hb : b ≠ "") : orElse a b ≠ "" := by
  unfold orElse
  cases a with
  | none => simpa [truthy] using hb
  | some x =>
    by_cases hx : x = ""
    · simpa [truthy, hx] using hb
    · simp [truthy, hx, jsStr]

theorem run_onCommand_rejected (W : World) (env : Env) (H : Handlers)
    (i : ChatInputInteraction) (notice : String) (s : State) (t : List Event)
    (h : checkedDispatch env H i = await (.editReply notice)) :
    (run W (onCommand env H i) s t).state = s ∧
    (run W (onCommand env H i) s t).result = .ok () ∧
    (effects W (onCommand env H i) s t).all Event.isReplyOrLog = true := by
  generalize hO : run W (onCommand env H i) s t = O
  have hE : effects W (onCommand env H i) s t = O.trace.drop t.length := by
    rw [effects, hO]
  rw [hE]
  simp only [onCommand, onCommandError, h, run_bind, run_tryCatch, run_await, run_console] at hO
  iterate 4
    try any_goals
      (generalize W.call _ _ = r at hO
       fail_if_success (clear r)
       cases r <;>
       simp only [run_bind, run_tryCatch, run_await, run_console, if_true,
         Bool.false_eq_true, if_false] at hO)
  all_goals
    subst hO
    simp [List.append_assoc, Event.isReplyOrLog]

theorem checkedDispatch_rejected (env : Env) (i : ChatInputInteraction)
    (hrej :
      ((i.commandName = "start" ∨ i.commandName = "tempbanvote") ∧
        ∀ roles, i.member = some roles → orElse env.DISCORD_START_ROLE "Approved" ∉ roles) ∨
      (i.commandName ≠ "start" ∧ i.commandName ≠ "tempbanvote" ∧
        hasRequiredRole env i.base = false)) :
    ∃ notice, ∀ H, checkedDispatch env H i = await (.editReply notice) := by
  rcases hrej with ⟨hname, hrole⟩ | ⟨h1, h2, hrole⟩
  · have hno : hasRoleByName i (orElse env.DISCORD_START_ROLE "Approved") = false := by
      cases hb : hasRoleByName i (orElse env.DISCORD_START_ROLE "Approved") with
      | false => rfl
      | true =>
        obtain ⟨roles, hm, hin⟩ :=
          (hasRoleByName_iff i _ (orElse_ne_empty _ _ (by decide))).mp hb
        exact absurd hin (hrole roles hm)
    refine ⟨startRoleNotice (orElse env.DISCORD_START_ROLE "Approved") i.commandName, ?_⟩
    intro H
    simp [checkedDispatch, hname, hno]
  · refine ⟨requiredRoleNotice env, ?_⟩
    intro H
    simp [checkedDispatch, h1, h2, hrole]

/-- C22: when the command is `/start` or `/tempbanvote` and the member has no
role named `DISCORD_START_ROLE` (`Approved` when that is unset or empty), or
there is no member, and when the command is any other one and `hasRequiredRole`
is false, no handler runs: the code of the slash-command branch is the same
whatever the nine handlers are, the process state is unchanged (a rejected
`/tempbanvote` registers no poll and arms no timer), the branch ends without
raising, and its effects are only lines of the console and the calls
`deferReply`, `reply` and `editReply` with a text. -/
theorem C22_slash_command_gate (W : World) (env : Env) (H : Handlers)
    (i : ChatInputInteraction) (s : State) (t : List Event)
    (hrej :
      ((i.commandName = "start" ∨ i.commandName = "tempbanvote") ∧
        ∀ roles, i.member = some roles → orElse env.DISCORD_START_ROLE "Approved" ∉ roles) ∨
      (i.commandName ≠ "start" ∧ i.commandName ≠ "tempbanvote" ∧
        hasRequiredRole env i.base = false)) :
    (∀ H', onCommand env H' i = onCommand env H i) ∧
    (run W (onCommand env H i) s t).state = s ∧
    (run W (onCommand env H i) s t).result = .ok () ∧
    (effects W (onCommand env H i) s t).all Event.isReplyOrLog = true := by
  obtain ⟨notice, h⟩ := checkedDispatch_rejected env i hrej
  refine ⟨?_, run_onCommand_rejected W env H i notice s t (h H)⟩
  intro H'
  simp only [onCommand, h H, h H']

/-- C22, at a `/tempbanvote` by a member whose only role is `Member`, with
`DISCORD_START_ROLE` unset: the registry stays empty. With the role `Approved`
the same request registers the poll `poll_0_abcdef`. -/
theorem C22_slash_command_gate_witness :
    (run worldOnline (onCommand envBot
        (idleHandlers.withTempBanVote envBot requestWithReason 0 "0.abcdefgh" replyMessage)
        tempbanvoteByMember) stateEmpty []).state = stateEmpty ∧
    (run worldOnline (onCommand envBot
        (idleHandlers.withTempBanVote envBot requestWithReason 0 "0.abcdefgh" replyMessage)
        tempbanvoteByApproved) stateEmpty []).state.polls.has "poll_0_abcdef" = true :=
  ⟨(C22_slash_command_gate worldOnline envBot
      (idleHandlers.withTempBanVote envBot requestWithReason 0 "0.abcdefgh" replyMessage)
      tempbanvoteByMember stateEmpty []
      (Or.inl ⟨Or.inr rfl, by simp [tempbanvoteByMember, envBot, orElse, truthy]⟩)).2.1,
   by decide⟩

/-! ## The wrapper of the command call -/

theorem digitChar_ne_I : ∀ d, d < 10 → Nat.digitChar d ≠ 'I' := by
  decide

theorem toDigitsCore_no_I (fuel : Nat) :
    ∀ (n : Nat) (ds : List Char), 'I' ∉ ds → 'I' ∉ Nat.toDigitsCore 10 fuel n ds := by
  induction fuel with
  | zero => intro n ds h; exact h
  | succ fuel ih =>
    intro n ds h
    have hcons : 'I' ∉ Nat.digitChar (n % 10) :: ds := by
      intro hm
      rcases List.mem_cons.mp hm with e | e
      · exact digitChar_ne_I _ (Nat.mod_lt _ (by decide)) e.symm
      · exact h e
    simp only [Nat.toDigitsCore]
    split
    · exact hcons
    · exact ih _ _ hcons

theorem notOnlineMessage_not_invalid (status : Nat) :
    ¬ containsText (notOnlineMessage status) "Invalid command" := by
  intro h
  have hI : 'I' ∈ (notOnlineMessage status).data :=
    h.subset (by decide : 'I' ∈ "Invalid command".data)
  have hd : 'I' ∉ (toString status).data := toDigitsCore_no_I _ _ _ (by simp)
  have hp : 'I' ∉ "Server must be online to execute commands (current status: ".data := by
    decide
  have hc : 'I' ∉ ")".data := by decide
  simp only [notOnlineMessage, String.data_append, List.mem_append] at hI
  rcases hI with (hI | hI) | hI
  · exact hp hI
  · exact hd hI
  · exact hc hI

theorem executeCommandAttempt_success (A : ServerAnswers) (command : String)
    (reply : CommandReply) (h : (executeCommandAttempt A command).1 = .ok reply) :
    reply.success = true := by
  unfold executeCommandAttempt at h
  rcases A with ⟨g, sb, ex, un⟩
  rcases g with e | status
  · simp at h
  · by_cases hs : status = 1
    · rcases sb with e | u <;> rcases ex with e | u <;> rcases un with e | u <;>
        simp [hs] at h
      rw [← h]
    · simp [hs] at h

/-- C23 (amended): `ExarotonAPI.executeCommand` never returns an object with
`success = false`. It returns `{ success: true, message: 'Command executed' }`
when `server.get()` reports status 1, `server.executeCommand` succeeds and the
websocket calls do not raise. When the `try` block raises an error, it returns
`{ success: true, warning: true }` if the message contains `Invalid command`
and otherwise raises `Failed to execute command: ` followed by that message;
the error is that of `server.get()` when it rejects, and that of
`server.executeCommand` when the server is online and the command call rejects.
When the status is not 1 the command is never sent and the error raised is
`Failed to execute command: Server must be online to execute commands (current
status: n)`. -/
theorem C23_executeCommand_wrapper (A : ServerAnswers) (command : String) :
    (∀ reply, (ExarotonAPI.executeCommand A command).1 = .ok reply → reply.success = true) ∧
    (A.get = .ok 1 → A.subscribe = .ok () → A.executeCommand = .ok () →
      A.unsubscribe = .ok () →
      ExarotonAPI.executeCommand A command
        = (.ok { success := true, message := "Command executed", warning := false },
            [.get, .subscribe, .executeCommand command, .unsubscribe])) ∧
    (∀ e, (executeCommandAttempt A command).1 = .error e →
      (ExarotonAPI.executeCommand A command).1
        = if containsText e "Invalid command" then
            .ok { success := true,
                  message := "Command sent (check server console for execution)",
                  warning := true }
          else .error ("Failed to execute command: " ++ e)) ∧
    (∀ e, A.get = .error e → (executeCommandAttempt A command).1 = .error e) ∧
    (∀ e, A.get = .ok 1 → A.subscribe = .ok () → A.executeCommand = .error e →
      (executeCommandAttempt A command).1 = .error e) ∧
    (∀ status, A.get = .ok status → status ≠ 1 →
      (ExarotonAPI.executeCommand A command).1
        = .error ("Failed to execute command: " ++ notOnlineMessage status) ∧
      (ExarotonAPI.executeCommand A command).2.any ServerCall.isExecuteCommand = false) := by
  refine ⟨?_, ?_, ?_, ?_, ?_, ?_⟩
  · intro reply h
    unfold ExarotonAPI.executeCommand at h
    rcases hA : executeCommandAttempt A command with ⟨r | r, calls⟩
    · rw [hA] at h
      by_cases hc : containsText r "Invalid command"
      · simp [hc] at h
        rw [← h]
      · simp [hc] at h
    · rw [hA] at h
      simp at h
      exact executeCommandAttempt_success A command reply (by rw [hA, h])
  · intro hg hs he hu
    simp [ExarotonAPI.executeCommand, executeCommandAttempt, hg, hs, he, hu]
  · intro e h
    unfold ExarotonAPI.executeCommand
    rcases hA : executeCommandAttempt A command with ⟨r | r, calls⟩
    · rw [hA] at h
      simp at h
      subst h
      by_cases hc : containsText r "Invalid command" <;> simp [hc]
    · rw [hA] at h
      simp at h
  · intro e hg
    simp [executeCommandAttempt, hg]
  · intro e hg hs he
    simp [executeCommandAttempt, hg, hs, he]
  · intro status hg hne
    have hno := notOnlineMessage_not_invalid status
    simp [ExarotonAPI.executeCommand, executeCommandAttempt, hg, hne, hno,
      ServerCall.isExecuteCommand]

/-- C23, at an online server that accepts the command, at one whose REST API
answers `Invalid command`, at one whose command call times out, and at an
offline server. -/
theorem C23_executeCommand_wrapper_witness :
    ExarotonAPI.executeCommand answersOnline "say hi"
      = (.ok { success := true, message := "Command executed", warning := false },
          [.get, .subscribe, .executeCommand "say hi", .unsubscribe]) ∧
    (ExarotonAPI.executeCommand answersInvalid "say hi").1
      = (if containsText "Invalid command" "Invalid command" then
            .ok { success := true,
                  message := "Command sent (check server console for execution)",
                  warning := true }
          else .error ("Failed to execute command: " ++ "Invalid command")) ∧
    (ExarotonAPI.executeCommand answersTimeout "say hi").1
      = .error "Failed to execute command: timeout" ∧
    ((ExarotonAPI.executeCommand answersOffline "say hi").1
        = .error ("Failed to execute command: " ++ notOnlineMessage 0) ∧
      (ExarotonAPI.executeCommand answersOffline "say hi").2.any ServerCall.isExecuteCommand
        = false) :=
  ⟨(C23_executeCommand_wrapper answersOnline "say hi").2.1 rfl rfl rfl rfl,
   (C23_executeCommand_wrapper answersInvalid "say hi").2.2.1 "Invalid command" (by decide),
   by decide,
   (C23_executeCommand_wrapper answersOffline "say hi").2.2.2.2.2 0 rfl (by decide)⟩

/-! ## The route of the RAM setting -/

/-- C24, evaluated where it fails: with the body `{ "ram": "abc" }` none of
`!ram`, `ram < 2` and `ram > 16` is true, because `abc` is a non-empty text and
converts to `NaN`, so the route calls `setRAM(id, "abc")` instead of answering
400. A text that converts to a number from 2 to 16, as `8`, is forwarded as a
text. For a number `x` the route forwards exactly when `2 ≤ x ≤ 16`, and for a
body without `ram`, with `null`, `false` or the empty text it answers 400
without a call. -/
theorem C24_non_numeric_ram_forwarded (stringToNumber : String → Option ℚ)
    (setRAM : String → JSValue → Except String CommandReply) (id : String)
    (habc : stringToNumber "abc" = none) (h8 : stringToNumber "8" = some 8) :
    (putServerRam stringToNumber setRAM id (.string "abc")).2 = [(id, .string "abc")] ∧
    (∀ error, (putServerRam stringToNumber setRAM id (.string "abc")).1 ≠ .badRequest error) ∧
    (putServerRam stringToNumber setRAM id (.string "8")).2 = [(id, .string "8")] ∧
    (∀ x : ℚ, (putServerRam stringToNumber setRAM id (.number x)).2
        = if 2 ≤ x ∧ x ≤ 16 then [(id, .number x)] else []) ∧
    (∀ ram, ram ∈ [JSValue.undefined, .null, .bool false, .string "", .number 0] →
      putServerRam stringToNumber setRAM id ram
        = (.badRequest "RAM must be between 2 and 16 GB", [])) := by
  refine ⟨?_, ?_, ?_, ?_, ?_⟩
  · simp only [putServerRam, JSValue.truthy, JSValue.lt, JSValue.gt, JSValue.toNumber, habc]
    cases setRAM id (.string "abc") <;> simp
  · intro error
    simp only [putServerRam, JSValue.truthy, JSValue.lt, JSValue.gt, JSValue.toNumber, habc]
    cases setRAM id (.string "abc") <;> simp
  · simp only [putServerRam, JSValue.truthy, JSValue.lt, JSValue.gt, JSValue.toNumber, h8]
    have h8ne : ("8" : String) ≠ "" := by decide
    cases setRAM id (.string "8") <;> norm_num [h8ne]
  · intro x
    simp only [putServerRam, JSValue.truthy, JSValue.lt, JSValue.gt, JSValue.toNumber]
    by_cases h0 : x = 0
    · subst h0; norm_num
    · by_cases h2 : x < 2
      · have : ¬ (2 ≤ x ∧ x ≤ 16) := fun h => absurd h2 (not_lt.mpr h.1)
        simp [h0, h2, this]
      · by_cases h16 : x > 16
        · have : ¬ (2 ≤ x ∧ x ≤ 16) := fun h => absurd h16 (not_lt.mpr h.2)
          simp [h0, h2, h16, this]
        · have : 2 ≤ x ∧ x ≤ 16 := ⟨not_lt.mp h2, not_lt.mp h16⟩
          cases setRAM id (.number x) <;> simp [h0, h2, h16, this]
  · intro ram hram
    simp only [List.mem_cons, List.mem_singleton, List.not_mem_nil, or_false] at hram
    rcases hram with rfl | rfl | rfl | rfl | rfl <;>
      simp [putServerRam, JSValue.truthy]

/-- C24's failing input at a conversion that is right on `abc` and on `8`. -/
theorem C24_non_numeric_ram_forwarded_witness :
    digitsToNumber "abc" = none ∧ digitsToNumber "8" = some 8 ∧
    (putServerRam digitsToNumber setRAMAccepts "srv1" (.string "abc")).2
      = [("srv1", .string "abc")] :=
  ⟨by decide, by simp [digitsToNumber], (C24_non_numeric_ram_forwarded digitsToNumber
    setRAMAccepts "srv1" (by decide) (by simp [digitsToNumber])).1⟩

/-! ## Resolution when the display update succeeds and the server is online -/

/-- On a registered poll with more yes than no votes, when the channel fetch,
the message fetch and the message edit resolve and the status query answers
status 1, the run of `endPoll` holds the resolved edit, the status query and
the command call with the answer of `executeCommand`. -/
theorem endPoll_passing_reaches (W : World) (env : Env) (s : State) (t : List Event)
    (id : String) (p : Poll) (hp : s.poll? id = some p) (hgt : p.yes.size > p.no.size)
    (hchannel : ∀ t1, W.call t1 (.fetchChannel p.channelId) = .ok ())
    (hmessage : ∀ t1, W.call t1 (.fetchMessage p.channelId p.messageId) = .ok ())
    (hedit : ∀ t1, W.call t1 (.edit p.messageId ("Poll ended | Initiated by " ++ p.initiator)
      (countFields p) (disabledRow id p)) = .ok ())
    (honline : ∀ t1, W.getServerInfo t1 p.serverId = .ok 1) :
    (effects W (endPoll env id) s t).any Event.isEditOk = true ∧
    Event.getServerInfo p.serverId (.ok 1) ∈ effects W (endPoll env id) s t ∧
    ∃ r, (∃ t1, W.executeCommand t1 p.serverId (banCommand env p) = r) ∧
      Event.executeCommand p.serverId (banCommand env p) r
        ∈ effects W (endPoll env id) s t := by
  obtain ⟨ref, hget, hderef⟩ := State.poll?_eq_some hp
  unfold effects
  generalize hO : run W (endPoll env id) s t = O
  simp only [endPoll, decideOutcome, executeIfOnline, executeBan, run_bind,
    run_tryCatch, run_tryFinally, run_getState, hget, run_modifyState, run_readPoll,
    State.deref_clearTimeout, hderef, run_await, hgt, if_true, run_console,
    run_getServerInfo, run_executeCommand, hchannel, hmessage, hedit, honline,
    ne_eq, not_true_eq_false, if_false] at hO
  generalize hr : W.executeCommand _ _ _ = r at hO
  rcases r with e | ⟨_ | _, err⟩ <;>
    simp only [State.deref_clearTimeout, hderef, run_await, run_console, run_readPoll,
      run_bind, run_tryCatch, Bool.false_eq_true, if_false, if_true, List.append_assoc] at hO
  all_goals
    iterate 3
      try any_goals
        (generalize W.call _ _ = r at hO
         fail_if_success (clear r)
         cases r <;>
         simp only [State.deref_clearTimeout, hderef, run_await, run_console, run_readPoll,
           run_bind, run_tryCatch, List.append_assoc] at hO)
  all_goals
    subst hO
    exact ⟨by simp [Event.isEditOk], by simp, ⟨_, ⟨_, hr⟩, by simp⟩⟩

/-- C8: for every registered poll with `|yes| > |no|`, when the display update
succeeds (the channel fetch, the message fetch and the message edit resolve)
and the status query reports the server online (status 1), `endPoll` edits the
message, queries the status and invokes `executeCommand` exactly once, and
that one call has the poll's `serverId` and the command built from the
template. -/
theorem C8_passing_online_executes_once (W : World) (env : Env) (s : State) (t : List Event)
    (id : String) (p : Poll) (hp : s.poll? id = some p) (hgt : p.yes.size > p.no.size)
    (hchannel : ∀ t1, W.call t1 (.fetchChannel p.channelId) = .ok ())
    (hmessage : ∀ t1, W.call t1 (.fetchMessage p.channelId p.messageId) = .ok ())
    (hedit : ∀ t1, W.call t1 (.edit p.messageId ("Poll ended | Initiated by " ++ p.initiator)
      (countFields p) (disabledRow id p)) = .ok ())
    (honline : ∀ t1, W.getServerInfo t1 p.serverId = .ok 1) :
    (effects W (endPoll env id) s t).any Event.isEditOk = true ∧
    Event.getServerInfo p.serverId (.ok 1) ∈ effects W (endPoll env id) s t ∧
    (effects W (endPoll env id) s t).countP Event.isExecuteCommand = 1 ∧
    (effects W (endPoll env id) s t).countP
      (Event.isExecuteOf p.serverId (banCommand env p)) = 1 :=
  ⟨(endPoll_passing_reaches W env s t id p hp hgt hchannel hmessage hedit honline).1,
   (endPoll_passing_reaches W env s t id p hp hgt hchannel hmessage hedit honline).2.1,
   (endPoll_passing W env s t id p hp hgt).2.2.2.1
     (endPoll_passing_reaches W env s t id p hp hgt hchannel hmessage hedit honline).2.1⟩

/-- C8, at a poll with two yes votes and one no vote, every call to Discord
resolving and the server online. -/
theorem C8_passing_online_executes_once_witness :
    (effects worldOnline (endPoll envBot "poll_x") statePassing []).any Event.isEditOk = true ∧
    Event.getServerInfo pollPassing.serverId (.ok 1)
      ∈ effects worldOnline (endPoll envBot "poll_x") statePassing [] ∧
    (effects worldOnline (endPoll envBot "poll_x") statePassing []).countP
      Event.isExecuteCommand = 1 ∧
    (effects worldOnline (endPoll envBot "poll_x") statePassing []).countP
      (Event.isExecuteOf pollPassing.serverId (banCommand envBot pollPassing)) = 1 :=
  C8_passing_online_executes_once worldOnline envBot statePassing [] "poll_x" pollPassing
    (by decide) (by decide) (fun _ => rfl) (fun _ => rfl) (fun _ => rfl) (fun _ => rfl)

theorem wrapperResult_success (A : ServerAnswers) (command : String) (res : CmdResult)
    (h : wrapperResult A command = .ok res) : res.success = true := by
  unfold wrapperResult at h
  cases hE : (ExarotonAPI.executeCommand A command).1 with
  | error m => rw [hE] at h; cases h
  | ok reply =>
    rw [hE] at h
    have hs : reply.success = true := by
      unfold ExarotonAPI.executeCommand at hE
      rcases hA : executeCommandAttempt A command with ⟨r | r, calls⟩
      · rw [hA] at hE
        by_cases hc : containsText r "Invalid command"
        · simp [hc] at hE
          rw [← hE]
        · simp [hc] at hE
      · rw [hA] at hE
        simp at hE
        exact executeCommandAttempt_success A command reply (by rw [hA, hE])
    cases h
    exact hs

/-- C10: for every registered poll with `|yes| > |no|`, when the display update
succeeds, the server is online and the executor is `ExarotonAPI.executeCommand`
(over any answers of the exaroton client), the poll is removed from the
registry; the executor never returns a non-success result, so a failure of the
command is a raise, and whenever it raises, the failure notice that is posted
contains the attempted command text. -/
theorem C10_command_failure (W : World) (env : Env) (s : State) (t : List Event)
    (id : String) (p : Poll) (A : ServerAnswers) (hp : s.poll? id = some p)
    (hgt : p.yes.size > p.no.size)
    (hchannel : ∀ t1, W.call t1 (.fetchChannel p.channelId) = .ok ())
    (hmessage : ∀ t1, W.call t1 (.fetchMessage p.channelId p.messageId) = .ok ())
    (hedit : ∀ t1, W.call t1 (.edit p.messageId ("Poll ended | Initiated by " ++ p.initiator)
      (countFields p) (disabledRow id p)) = .ok ())
    (honline : ∀ t1, W.getServerInfo t1 p.serverId = .ok 1)
    (hexec : ∀ t1, W.executeCommand t1 p.serverId (banCommand env p)
      = wrapperResult A (banCommand env p)) :
    (run W (endPoll env id) s t).state.polls.get id = none ∧
    (run W (endPoll env id) s t).state.poll? id = none ∧
    (∀ res, wrapperResult A (banCommand env p) = .ok res → res.success = true) ∧
    (∀ m, wrapperResult A (banCommand env p) = .error m →
      Event.executeCommand p.serverId (banCommand env p) (.error m)
        ∈ effects W (endPoll env id) s t ∧
      (effects W (endPoll env id) s t).any
        (Event.isSend p.channelId (commandErrorNotice p (banCommand env p) m)) = true ∧
      containsText (commandErrorNotice p (banCommand env p) m) (banCommand env p)) := by
  have h := endPoll_passing W env s t id p hp hgt
  have hget : (run W (endPoll env id) s t).state.polls.get id = none := by
    rw [h.1]
    exact PollMap.get_delete _ _
  refine ⟨hget, ?_, ?_, ?_⟩
  · simp [State.poll?, hget]
  · intro res hres
    exact wrapperResult_success A _ res hres
  · intro m hm
    obtain ⟨r, ⟨t1, hr⟩, hmem⟩ :=
      (endPoll_passing_reaches W env s t id p hp hgt hchannel hmessage hedit honline).2.2
    rw [hexec t1, hm] at hr
    rw [← hr] at hmem
    exact ⟨hmem, h.2.2.2.2.1 m hmem, commandErrorNotice_contains_command _ _ _⟩

/-- C10, at a poll with two yes votes and one no vote, the server online and
the command call of the exaroton client timing out: the wrapper raises
`Failed to execute command: timeout`. -/
theorem C10_command_failure_witness :
    wrapperResult answersTimeout (banCommand envBot pollPassing)
      = .error "Failed to execute command: timeout" ∧
    (run worldCommandRaises (endPoll envBot "poll_x") statePassing []).state.polls.get "poll_x"
      = none ∧
    (effects worldCommandRaises (endPoll envBot "poll_x") statePassing []).any
      (Event.isSend pollPassing.channelId
        (commandErrorNotice pollPassing (banCommand envBot pollPassing)
          "Failed to execute command: timeout")) = true ∧
    containsText
      (commandErrorNotice pollPassing (banCommand envBot pollPassing)
        "Failed to execute command: timeout")
      (banCommand envBot pollPassing) :=
  ⟨by decide,
   (C10_command_failure worldCommandRaises envBot statePassing [] "poll_x" pollPassing
      answersTimeout (by decide) (by decide) (fun _ => rfl) (fun _ => rfl) (fun _ => rfl)
      (fun _ => rfl) (fun _ => rfl)).1,
   ((C10_command_failure worldCommandRaises envBot statePassing [] "poll_x" pollPassing
      answersTimeout (by decide) (by decide) (fun _ => rfl) (fun _ => rfl) (fun _ => rfl)
      (fun _ => rfl) (fun _ => rfl)).2.2.2 "Failed to execute command: timeout"
      (by decide)).2⟩

/-! ## The stored reason -/

/-- The state after `handleTempBanVote` on a request with a player name and a
configured server id, when the reply and its fetch resolve: the poll is
created. -/
theorem handleTempBanVote_created (W : World) (env : Env) (i : CommandInteraction) (now : Nat)
    (randomText : String) (msg : Message) (s : State) (t : List Event)
    (hplayer : truthy i.player = true) (hserver : truthy env.DEFAULT_SERVER_ID = true)
    (hreply : ∀ t1, W.call t1 (pollReply (newPollId now randomText) (jsStr i.player)
      (jsStr env.DEFAULT_SERVER_ID) (orElse i.reason "No reason provided") i.userTag) = .ok ())
    (hfetch : ∀ t1, W.call t1 .fetchReply = .ok ()) :
    (run W (handleTempBanVote env i now randomText msg) s t).state
      = s.createPoll (newPollId now randomText) (jsStr i.player) (jsStr env.DEFAULT_SERVER_ID)
          (orElse i.reason "No reason provided") i.userTag msg := by
  simp only [handleTempBanVote, run_bind, run_await, run_modifyState, hplayer, hserver,
    Bool.not_true, if_false, Bool.false_eq_true, hreply, hfetch]

/-- C17: a poll-creation request with a player name and a configured server
id, whose reply and fetch of the reply resolve, registers a poll, and the
reason stored in it is the text of the reason option when one is supplied (a
non-empty text), and the placeholder `No reason provided` when the option is
omitted; the stored reason is the placeholder only when no reason text was
supplied (option omitted or empty) or the placeholder itself was typed. -/
theorem C17_stored_reason (W : World) (env : Env) (i : CommandInteraction) (now : Nat)
    (randomText : String) (msg : Message) (s : State) (t : List Event)
    (hplayer : truthy i.player = true) (hserver : truthy env.DEFAULT_SERVER_ID = true)
    (hreply : ∀ t1, W.call t1 (pollReply (newPollId now randomText) (jsStr i.player)
      (jsStr env.DEFAULT_SERVER_ID) (orElse i.reason "No reason provided") i.userTag) = .ok ())
    (hfetch : ∀ t1, W.call t1 .fetchReply = .ok ()) :
    ∃ p, (run W (handleTempBanVote env i now randomText msg) s t).state.poll?
          (newPollId now randomText) = some p ∧
      (∀ r, i.reason = some r → r ≠ "" → p.reason = r) ∧
      (i.reason = none → p.reason = "No reason provided") ∧
      (p.reason = "No reason provided" →
        i.reason = none ∨ i.reason = some "" ∨ i.reason = some "No reason provided") := by
  refine ⟨(newPoll (jsStr i.player) (jsStr env.DEFAULT_SERVER_ID)
    (orElse i.reason "No reason provided") i.userTag s.freshHandle msg.id msg.channelId),
    ?_, ?_, ?_, ?_⟩
  · rw [handleTempBanVote_created W env i now randomText msg s t hplayer hserver hreply hfetch]
    exact State.poll?_createPoll_self _ _ _ _ _ _ _
  · intro r hr hne
    simp only [newPoll, hr]
    exact orElse_some_of_ne r _ hne
  · intro hr
    simp [newPoll, hr, orElse, truthy]
  · intro h
    exact orElse_eq_default _ _ h

/-- C17, at a request with the reason `griefing` and at a request without a
reason: the stored reasons are `griefing` and `No reason provided`. -/
theorem C17_stored_reason_witness :
    (∃ p, (run worldOnline (handleTempBanVote envBot requestWithReason 0 "0.abcdefgh"
            replyMessage) stateEmpty []).state.poll? (newPollId 0 "0.abcdefgh") = some p ∧
      p.reason = "griefing") ∧
    (∃ p, (run worldOnline (handleTempBanVote envBot requestNoReason 0 "0.abcdefgh"
            replyMessage) stateEmpty []).state.poll? (newPollId 0 "0.abcdefgh") = some p ∧
      p.reason = "No reason provided") :=
  ⟨(C17_stored_reason worldOnline envBot requestWithReason 0 "0.abcdefgh" replyMessage
      stateEmpty [] (by decide) (by decide) (fun _ => rfl) (fun _ => rfl)).elim
      (fun p h => ⟨p, h.1, h.2.1 "griefing" rfl (by decide)⟩),
   (C17_stored_reason worldOnline envBot requestNoReason 0 "0.abcdefgh" replyMessage
      stateEmpty [] (by decide) (by decide) (fun _ => rfl) (fun _ => rfl)).elim
      (fun p h => ⟨p, h.1, h.2.2.1 rfl⟩)⟩

/-- C23 as stated fails: the status fetch reports online and the remote command
call succeeds, and `server.unsubscribe(["console"])` of line 152, which is
inside the `try` block, raises `boom`; the wrapper raises
`Failed to execute command: boom` instead of returning `{ success: true }`,
after the command was sent. -/
theorem C23_counterexample :
    answersUnsubscribeRaises.get = .ok 1 ∧
    answersUnsubscribeRaises.executeCommand = .ok () ∧
    ExarotonAPI.executeCommand answersUnsubscribeRaises "say hi"
      = (.error "Failed to execute command: boom",
          [.get, .subscribe, .executeCommand "say hi", .unsubscribe, .unsubscribe]) := by
  decide

end Bot
